import Mathlib

/-!
# Module descriptors of the linux-gpib driver stack

A shallow embedding of the seven generated translation units
`cec_gpib.mod.c`, `gpib_bitbang.mod.c`, `hp82335.mod.c`, `nec7210.mod.c`,
`ni_usb_gpib.mod.c`, `gpib_common.mod.c` and `tms9914.mod.c`.

The units contain no executable code: each one is a list of macro invocations
(`KSYMTAB_FUNC`, `SYMBOL_CRC`, `MODULE_INFO`, `MODULE_ALIAS`) and one character
array `____versions` initialised by adjacent C string literals.  The embedding
keeps every `KSYMTAB_FUNC` and `SYMBOL_CRC` invocation as one list entry and
every string literal of the array initialiser as one Lean string, so that each
line below can be compared with the source line it stands for.  A byte is a
natural number below 256.  The lines before the tables are the same in the seven
units; they are embedded once, as a function of the `#ifdef` selectors and of the
macros that the build supplies, and the lines after the tables once per unit.
-/

namespace GpibModules

/-! ## C string literals and arrays -/

/-- The bytes of a sequence of characters, followed by `tail`.  Every character
used in this file has a code below 256 and stands for the byte with that value. -/
def charBytes : List Char → List Nat → List Nat
  | [], tail => tail
  | c :: cs, tail => c.toNat :: charBytes cs tail

/-- The bytes denoted by the body of one C string literal.  The Lean literal
carries the same characters as the C literal; the C octal escape `\0` is spelled
`\x00`. -/
def cbytes (s : String) : List Nat := charBytes s.data []

/-- The contents of `static const char a[] = "l1" "l2" ... ;`: adjacent
literals are concatenated and the array receives the terminating NUL of the
resulting string, so its size is the number of literal bytes plus one. -/
def cArray : List String → List Nat
  | [] => [0]
  | l :: ls => charBytes l.data (cArray ls)

/-! ## Macro invocations -/

/-- One `KSYMTAB_FUNC(name, sec, ns)` line: the exported symbol, its license
qualifier (`""` or `"_gpl"`, the suffix of the `__ksymtab` section) and its
namespace string. -/
structure KsymtabEntry where
  name : String
  sec : String
  ns : String
  deriving DecidableEq, Repr

/-- One `SYMBOL_CRC(sym, crc, sec)` line: the exported symbol, its 32-bit
version tag and its license qualifier (the suffix of the `__kcrctab` section). -/
structure CrcEntry where
  sym : String
  crc : Nat
  sec : String
  deriving DecidableEq, Repr

/-! ## The seven translation units -/

namespace cec_gpib

/-- The `KSYMTAB_FUNC(name, sec, ns)` lines of `cec_gpib.mod.c`, in source order. -/
def KSYMTAB_FUNC : List KsymtabEntry :=
  []

/-- The `SYMBOL_CRC(sym, crc, sec)` lines of `cec_gpib.mod.c`, in source order. -/
def SYMBOL_CRC : List CrcEntry :=
  []

/-- The array `____versions` of `cec_gpib.mod.c`: the adjacent string literals of its
initialiser, one per source line. -/
def ____versions : List Nat := cArray
  [ "\x14\x00\x00\x00\x3b\x4a\x51\xc1",
    "free_irq\x00\x00\x00\x00",
    "\x18\x00\x00\x00\xf4\x26\xfa\x39",
    "nec7210_read\x00\x00\x00\x00",
    "\x1c\x00\x00\x00\xb8\xc7\x17\xfb",
    "pci_enable_device\x00\x00\x00",
    "\x28\x00\x00\x00\x0c\xe9\x34\x0a",
    "nec7210_parallel_poll_response\x00\x00",
    "\x1c\x00\x00\x00\x62\x32\x52\xe0",
    "nec7210_t1_delay\x00\x00\x00\x00",
    "\x14\x00\x00\x00\x93\x74\xc6\x5d",
    "pci_dev_put\x00",
    "\x20\x00\x00\x00\x1f\x5c\x90\xf0",
    "__pci_register_driver\x00\x00\x00",
    "\x1c\x00\x00\x00\x31\xe0\x27\xa7",
    "pci_request_regions\x00",
    "\x10\x00\x00\x00\xba\x0c\x7a\x03",
    "kfree\x00\x00\x00",
    "\x20\x00\x00\x00\x79\xc3\x37\xff",
    "gpib_request_pseudo_irq\x00",
    "\x20\x00\x00\x00\xac\xdf\xd5\x6f",
    "nec7210_primary_address\x00",
    "\x28\x00\x00\x00\xd8\x33\x32\xb1",
    "nec7210_request_system_control\x00\x00",
    "\x1c\x00\x00\x00\x5d\xce\xdf\xf7",
    "nec7210_board_reset\x00",
    "\x20\x00\x00\x00\x0b\x05\xdb\x34",
    "_raw_spin_lock_irqsave\x00\x00",
    "\x20\x00\x00\x00\x49\x1a\x8f\x46",
    "pci_unregister_driver\x00\x00\x00",
    "\x14\x00\x00\x00\xbb\x6d\xfb\xbd",
    "__fentry__\x00\x00",
    "\x24\x00\x00\x00\x97\x70\x48\x65",
    "__x86_indirect_thunk_rax\x00\x00\x00\x00",
    "\x10\x00\x00\x00\x7e\x3a\x2c\x12",
    "_printk\x00",
    "\x20\x00\x00\x00\x8f\x87\x2d\x44",
    "gpib_register_driver\x00\x00\x00\x00",
    "\x18\x00\x00\x00\x22\x95\x93\xb5",
    "nec7210_write\x00\x00\x00",
    "\x1c\x00\x00\x00\xeb\x2a\xd8\xe8",
    "nec7210_disable_eos\x00",
    "\x24\x00\x00\x00\x97\x16\x87\xc0",
    "nec7210_secondary_address\x00\x00\x00",
    "\x20\x00\x00\x00\x9e\xfa\x3d\xe7",
    "nec7210_take_control\x00\x00\x00\x00",
    "\x1c\x00\x00\x00\x1c\x09\xc8\xfb",
    "nec7210_interrupt\x00\x00\x00",
    "\x24\x00\x00\x00\xbd\xd2\x45\x9e",
    "nec7210_ioport_write_byte\x00\x00\x00",
    "\x20\x00\x00\x00\x4e\xe5\x81\x3e",
    "nec7210_board_online\x00\x00\x00\x00",
    "\x24\x00\x00\x00\xc7\xb6\x4e\x5b",
    "nec7210_ioport_read_byte\x00\x00\x00\x00",
    "\x20\x00\x00\x00\x8e\x83\xd5\x92",
    "request_threaded_irq\x00\x00\x00\x00",
    "\x1c\x00\x00\x00\x63\xa5\x03\x4c",
    "random_kmalloc_seed\x00",
    "\x20\x00\x00\x00\x7c\xa7\xa0\x69",
    "nec7210_go_to_standby\x00\x00\x00",
    "\x20\x00\x00\x00\xdf\x45\xa1\x87",
    "nec7210_interface_clear\x00",
    "\x24\x00\x00\x00\x70\xce\x5c\xd3",
    "_raw_spin_unlock_irqrestore\x00",
    "\x20\x00\x00\x00\x95\x14\xaf\xf4",
    "nec7210_parallel_poll\x00\x00\x00",
    "\x1c\x00\x00\x00\xca\x39\x82\x5b",
    "__x86_return_thunk\x00\x00",
    "\x20\x00\x00\x00\xdc\xbf\x94\x9f",
    "gpib_free_pseudo_irq\x00\x00\x00\x00",
    "\x28\x00\x00\x00\x62\x83\x08\x29",
    "nec7210_parallel_poll_configure\x00",
    "\x20\x00\x00\x00\xec\xa0\x7f\x81",
    "nec7210_return_to_local\x00",
    "\x1c\x00\x00\x00\xc8\x23\x2f\x9d",
    "gpib_pci_get_device\x00",
    "\x20\x00\x00\x00\x74\xf9\xc1\x55",
    "gpib_unregister_driver\x00\x00",
    "\x1c\x00\x00\x00\xcf\x78\x6e\x10",
    "pci_release_regions\x00",
    "\x20\x00\x00\x00\x32\x49\xdc\x03",
    "nec7210_update_status\x00\x00\x00",
    "\x20\x00\x00\x00\xee\xfb\xb4\x10",
    "__kmalloc_cache_noprof\x00\x00",
    "\x1c\x00\x00\x00\x22\x83\x1c\x14",
    "nec7210_enable_eos\x00\x00",
    "\x24\x00\x00\x00\xa8\x90\xcd\xce",
    "nec7210_serial_poll_status\x00\x00",
    "\x20\x00\x00\x00\x60\x84\x38\xbb",
    "nec7210_remote_enable\x00\x00\x00",
    "\x18\x00\x00\x00\xbc\x60\xaf\xf8",
    "nec7210_command\x00",
    "\x18\x00\x00\x00\xaf\xfc\x16\x7b",
    "kmalloc_caches\x00\x00",
    "\x28\x00\x00\x00\x65\x75\x06\x81",
    "nec7210_serial_poll_response\x00\x00\x00\x00",
    "\x18\x00\x00\x00\xde\x9f\x8a\x25",
    "module_layout\x00\x00\x00",
    "\x00\x00\x00\x00\x00\x00\x00\x00" ]

end cec_gpib

namespace gpib_bitbang

/-- The `KSYMTAB_FUNC(name, sec, ns)` lines of `gpib_bitbang.mod.c`, in source order. -/
def KSYMTAB_FUNC : List KsymtabEntry :=
  []

/-- The `SYMBOL_CRC(sym, crc, sec)` lines of `gpib_bitbang.mod.c`, in source order. -/
def SYMBOL_CRC : List CrcEntry :=
  []

/-- The array `____versions` of `gpib_bitbang.mod.c`: the adjacent string literals of its
initialiser, one per source line. -/
def ____versions : List Nat := cArray
  [ "\x14\x00\x00\x00\xbf\x0f\x54\x92",
    "finish_wait\x00",
    "\x20\x00\x00\x00\x8e\x83\xd5\x92",
    "request_threaded_irq\x00\x00\x00\x00",
    "\x1c\x00\x00\x00\x63\xa5\x03\x4c",
    "random_kmalloc_seed\x00",
    "\x18\x00\x00\x00\xaf\xfc\x16\x7b",
    "kmalloc_caches\x00\x00",
    "\x20\x00\x00\x00\xee\xfb\xb4\x10",
    "__kmalloc_cache_noprof\x00\x00",
    "\x10\x00\x00\x00\x5a\x25\xd5\xe2",
    "strcmp\x00\x00",
    "\x18\x00\x00\x00\x1d\x31\x8b\x7f",
    "gpio_to_desc\x00\x00\x00\x00",
    "\x1c\x00\x00\x00\x29\x95\x3f\x40",
    "gpio_request_one\x00\x00\x00\x00",
    "\x18\x00\x00\x00\x74\x2b\xd2\x74",
    "gpiod_to_irq\x00\x00\x00\x00",
    "\x18\x00\x00\x00\xe5\x70\x24\x39",
    "param_ops_int\x00\x00\x00",
    "\x18\x00\x00\x00\xc5\x8f\xa0\x00",
    "param_ops_charp\x00",
    "\x14\x00\x00\x00\xbb\x6d\xfb\xbd",
    "__fentry__\x00\x00",
    "\x1c\x00\x00\x00\xca\x39\x82\x5b",
    "__x86_return_thunk\x00\x00",
    "\x10\x00\x00\x00\x7e\x3a\x2c\x12",
    "_printk\x00",
    "\x18\x00\x00\x00\xfc\xc3\x13\x7c",
    "gpiod_get_value\x00",
    "\x18\x00\x00\x00\xe6\x5b\x51\x5e",
    "ktime_get_ts64\x00\x00",
    "\x14\x00\x00\x00\x3b\x4a\x51\xc1",
    "free_irq\x00\x00\x00\x00",
    "\x1c\x00\x00\x00\xcb\xf6\xfd\xf0",
    "__stack_chk_fail\x00\x00\x00\x00",
    "\x14\x00\x00\x00\xbe\x65\x0b\x65",
    "gpiod_put\x00\x00\x00",
    "\x14\x00\x00\x00\x52\x00\x99\xfe",
    "gpio_free\x00\x00\x00",
    "\x10\x00\x00\x00\xba\x0c\x7a\x03",
    "kfree\x00\x00\x00",
    "\x28\x00\x00\x00\xb3\x1c\xa2\x87",
    "__ubsan_handle_out_of_bounds\x00\x00\x00\x00",
    "\x14\x00\x00\x00\x44\x43\x96\xe2",
    "__wake_up\x00\x00\x00",
    "\x20\x00\x00\x00\x0b\x05\xdb\x34",
    "_raw_spin_lock_irqsave\x00\x00",
    "\x18\x00\x00\x00\x36\xed\x4c\x78",
    "gpiod_set_value\x00",
    "\x24\x00\x00\x00\x70\xce\x5c\xd3",
    "_raw_spin_unlock_irqrestore\x00",
    "\x1c\x00\x00\x00\xa2\x77\xc4\x0b",
    "irq_set_irq_type\x00\x00\x00\x00",
    "\x20\x00\x00\x00\x8f\x87\x2d\x44",
    "gpib_register_driver\x00\x00\x00\x00",
    "\x20\x00\x00\x00\xeb\x34\x90\xb4",
    "gpiod_direction_input\x00\x00\x00",
    "\x20\x00\x00\x00\x74\xf9\xc1\x55",
    "gpib_unregister_driver\x00\x00",
    "\x20\x00\x00\x00\x6c\x1d\x7c\x7a",
    "gpiod_direction_output\x00\x00",
    "\x18\x00\x00\x00\xad\x23\x4c\x36",
    "mutex_is_locked\x00",
    "\x20\x00\x00\x00\x5d\x7b\xc1\xe2",
    "__SCT__might_resched\x00\x00\x00\x00",
    "\x18\x00\x00\x00\x75\x79\x48\xfe",
    "init_wait_entry\x00",
    "\x14\x00\x00\x00\x51\x0e\x00\x01",
    "schedule\x00\x00\x00\x00",
    "\x20\x00\x00\x00\x95\xd4\x26\x8c",
    "prepare_to_wait_event\x00\x00\x00",
    "\x18\x00\x00\x00\xde\x9f\x8a\x25",
    "module_layout\x00\x00\x00",
    "\x00\x00\x00\x00\x00\x00\x00\x00" ]

end gpib_bitbang

namespace hp82335

/-- The `KSYMTAB_FUNC(name, sec, ns)` lines of `hp82335.mod.c`, in source order. -/
def KSYMTAB_FUNC : List KsymtabEntry :=
  []

/-- The `SYMBOL_CRC(sym, crc, sec)` lines of `hp82335.mod.c`, in source order. -/
def SYMBOL_CRC : List CrcEntry :=
  []

/-- The array `____versions` of `hp82335.mod.c`: the adjacent string literals of its
initialiser, one per source line. -/
def ____versions : List Nat := cArray
  [ "\x14\x00\x00\x00\x3b\x4a\x51\xc1",
    "free_irq\x00\x00\x00\x00",
    "\x1c\x00\x00\x00\x11\xad\x69\x9a",
    "tms9914_line_status\x00",
    "\x24\x00\x00\x00\x22\x92\x11\xec",
    "tms9914_iomem_write_byte\x00\x00\x00\x00",
    "\x20\x00\x00\x00\x5b\x46\x0d\x94",
    "tms9914_return_to_local\x00",
    "\x28\x00\x00\x00\x30\x7c\xec\x52",
    "tms9914_interrupt_have_status\x00\x00\x00",
    "\x10\x00\x00\x00\x53\x39\xc0\xed",
    "iounmap\x00",
    "\x10\x00\x00\x00\xba\x0c\x7a\x03",
    "kfree\x00\x00\x00",
    "\x20\x00\x00\x00\x5a\xe4\x4a\x04",
    "tms9914_go_to_standby\x00\x00\x00",
    "\x20\x00\x00\x00\x0b\x05\xdb\x34",
    "_raw_spin_lock_irqsave\x00\x00",
    "\x1c\x00\x00\x00\xc2\xc7\x35\x10",
    "__release_region\x00\x00\x00\x00",
    "\x14\x00\x00\x00\xbb\x6d\xfb\xbd",
    "__fentry__\x00\x00",
    "\x20\x00\x00\x00\x3e\x56\x29\x78",
    "tms9914_take_control\x00\x00\x00\x00",
    "\x20\x00\x00\x00\xcc\x0e\xb5\x23",
    "tms9914_interface_clear\x00",
    "\x24\x00\x00\x00\x97\x70\x48\x65",
    "__x86_indirect_thunk_rax\x00\x00\x00\x00",
    "\x10\x00\x00\x00\x7e\x3a\x2c\x12",
    "_printk\x00",
    "\x20\x00\x00\x00\x8f\x87\x2d\x44",
    "gpib_register_driver\x00\x00\x00\x00",
    "\x18\x00\x00\x00\xbd\x9c\x8e\x1e",
    "tms9914_command\x00",
    "\x28\x00\x00\x00\xab\xda\x20\x77",
    "tms9914_serial_poll_response\x00\x00\x00\x00",
    "\x20\x00\x00\x00\x2e\x4c\xda\x59",
    "tms9914_remote_enable\x00\x00\x00",
    "\x24\x00\x00\x00\x46\xb0\xed\xeb",
    "tms9914_secondary_address\x00\x00\x00",
    "\x20\x00\x00\x00\x8e\x83\xd5\x92",
    "request_threaded_irq\x00\x00\x00\x00",
    "\x1c\x00\x00\x00\x63\xa5\x03\x4c",
    "random_kmalloc_seed\x00",
    "\x1c\x00\x00\x00\xc3\x51\xef\x9f",
    "tms9914_board_reset\x00",
    "\x10\x00\x00\x00\x09\xcd\x80\xde",
    "ioremap\x00",
    "\x24\x00\x00\x00\xe0\x41\xd4\x4d",
    "tms9914_serial_poll_status\x00\x00",
    "\x24\x00\x00\x00\x70\xce\x5c\xd3",
    "_raw_spin_unlock_irqrestore\x00",
    "\x20\x00\x00\x00\x98\x31\xa5\x9c",
    "tms9914_update_status\x00\x00\x00",
    "\x18\x00\x00\x00\xd0\x32\x9c\x81",
    "tms9914_write\x00\x00\x00",
    "\x28\x00\x00\x00\x51\x76\x81\x94",
    "tms9914_parallel_poll_configure\x00",
    "\x1c\x00\x00\x00\xca\x39\x82\x5b",
    "__x86_return_thunk\x00\x00",
    "\x20\x00\x00\x00\x9e\x46\x0d\x35",
    "tms9914_iomem_read_byte\x00",
    "\x20\x00\x00\x00\x1e\x64\x6b\x56",
    "tms9914_parallel_poll\x00\x00\x00",
    "\x1c\x00\x00\x00\x83\x96\x03\x45",
    "tms9914_t1_delay\x00\x00\x00\x00",
    "\x20\x00\x00\x00\x74\xf9\xc1\x55",
    "gpib_unregister_driver\x00\x00",
    "\x28\x00\x00\x00\x4f\x1e\xe3\x73",
    "tms9914_parallel_poll_response\x00\x00",
    "\x20\x00\x00\x00\xee\xfb\xb4\x10",
    "__kmalloc_cache_noprof\x00\x00",
    "\x20\x00\x00\x00\x5b\x2c\x73\x87",
    "tms9914_primary_address\x00",
    "\x18\x00\x00\x00\x09\xe4\x8d\xf9",
    "tms9914_read\x00\x00\x00\x00",
    "\x1c\x00\x00\x00\x12\xe3\xee\xf7",
    "tms9914_enable_eos\x00\x00",
    "\x18\x00\x00\x00\xd3\x81\x34\xfa",
    "tms9914_online\x00\x00",
    "\x1c\x00\x00\x00\x8c\x5f\x3c\x8c",
    "tms9914_disable_eos\x00",
    "\x18\x00\x00\x00\x55\x88\x35\x77",
    "iomem_resource\x00\x00",
    "\x18\x00\x00\x00\xaf\xfc\x16\x7b",
    "kmalloc_caches\x00\x00",
    "\x1c\x00\x00\x00\x08\x16\xbd\x85",
    "__request_region\x00\x00\x00\x00",
    "\x28\x00\x00\x00\xdc\xe1\xd8\x78",
    "tms9914_request_system_control\x00\x00",
    "\x18\x00\x00\x00\xde\x9f\x8a\x25",
    "module_layout\x00\x00\x00",
    "\x00\x00\x00\x00\x00\x00\x00\x00" ]

end hp82335

namespace nec7210

/-- The `KSYMTAB_FUNC(name, sec, ns)` lines of `nec7210.mod.c`, in source order. -/
def KSYMTAB_FUNC : List KsymtabEntry :=
  [ ⟨"nec7210_command", "", ""⟩,
    ⟨"nec7210_board_reset", "", ""⟩,
    ⟨"nec7210_board_online", "", ""⟩,
    ⟨"nec7210_ioport_read_byte", "", ""⟩,
    ⟨"nec7210_ioport_write_byte", "", ""⟩,
    ⟨"nec7210_iomem_read_byte", "", ""⟩,
    ⟨"nec7210_iomem_write_byte", "", ""⟩,
    ⟨"nec7210_locking_ioport_read_byte", "", ""⟩,
    ⟨"nec7210_locking_ioport_write_byte", "", ""⟩,
    ⟨"nec7210_locking_iomem_read_byte", "", ""⟩,
    ⟨"nec7210_locking_iomem_write_byte", "", ""⟩,
    ⟨"nec7210_read", "", ""⟩,
    ⟨"nec7210_enable_eos", "", ""⟩,
    ⟨"nec7210_disable_eos", "", ""⟩,
    ⟨"nec7210_serial_poll_response", "", ""⟩,
    ⟨"nec7210_serial_poll_status", "", ""⟩,
    ⟨"nec7210_parallel_poll_configure", "", ""⟩,
    ⟨"nec7210_parallel_poll_response", "", ""⟩,
    ⟨"nec7210_parallel_poll", "", ""⟩,
    ⟨"nec7210_primary_address", "", ""⟩,
    ⟨"nec7210_secondary_address", "", ""⟩,
    ⟨"nec7210_update_status", "", ""⟩,
    ⟨"nec7210_update_status_nolock", "", ""⟩,
    ⟨"nec7210_set_reg_bits", "", ""⟩,
    ⟨"nec7210_set_handshake_mode", "", ""⟩,
    ⟨"nec7210_read_data_in", "", ""⟩,
    ⟨"nec7210_write", "", ""⟩,
    ⟨"nec7210_t1_delay", "", ""⟩,
    ⟨"nec7210_request_system_control", "", ""⟩,
    ⟨"nec7210_take_control", "", ""⟩,
    ⟨"nec7210_go_to_standby", "", ""⟩,
    ⟨"nec7210_interface_clear", "", ""⟩,
    ⟨"nec7210_remote_enable", "", ""⟩,
    ⟨"nec7210_release_rfd_holdoff", "", ""⟩,
    ⟨"nec7210_return_to_local", "", ""⟩,
    ⟨"nec7210_interrupt", "", ""⟩,
    ⟨"nec7210_interrupt_have_status", "", ""⟩ ]

/-- The `SYMBOL_CRC(sym, crc, sec)` lines of `nec7210.mod.c`, in source order. -/
def SYMBOL_CRC : List CrcEntry :=
  [ ⟨"nec7210_command", 0xf8af60bc, ""⟩,
    ⟨"nec7210_board_reset", 0xf7dfce5d, ""⟩,
    ⟨"nec7210_board_online", 0x3e81e54e, ""⟩,
    ⟨"nec7210_ioport_read_byte", 0x5b4eb6c7, ""⟩,
    ⟨"nec7210_ioport_write_byte", 0x9e45d2bd, ""⟩,
    ⟨"nec7210_iomem_read_byte", 0xd270e0d2, ""⟩,
    ⟨"nec7210_iomem_write_byte", 0xdbc67765, ""⟩,
    ⟨"nec7210_locking_ioport_read_byte", 0x630728a4, ""⟩,
    ⟨"nec7210_locking_ioport_write_byte", 0x30c200dc, ""⟩,
    ⟨"nec7210_locking_iomem_read_byte", 0x432c4770, ""⟩,
    ⟨"nec7210_locking_iomem_write_byte", 0x8d7e5c8d, ""⟩,
    ⟨"nec7210_read", 0x39fa26f4, ""⟩,
    ⟨"nec7210_enable_eos", 0x141c8322, ""⟩,
    ⟨"nec7210_disable_eos", 0xe8d82aeb, ""⟩,
    ⟨"nec7210_serial_poll_response", 0x81067565, ""⟩,
    ⟨"nec7210_serial_poll_status", 0xcecd90a8, ""⟩,
    ⟨"nec7210_parallel_poll_configure", 0x29088362, ""⟩,
    ⟨"nec7210_parallel_poll_response", 0x0a34e90c, ""⟩,
    ⟨"nec7210_parallel_poll", 0xf4af1495, ""⟩,
    ⟨"nec7210_primary_address", 0x6fd5dfac, ""⟩,
    ⟨"nec7210_secondary_address", 0xc0871697, ""⟩,
    ⟨"nec7210_update_status", 0x03dc4932, ""⟩,
    ⟨"nec7210_update_status_nolock", 0x8cca6b20, ""⟩,
    ⟨"nec7210_set_reg_bits", 0x778ad7ed, ""⟩,
    ⟨"nec7210_set_handshake_mode", 0xfdae0c9d, ""⟩,
    ⟨"nec7210_read_data_in", 0xf16bde82, ""⟩,
    ⟨"nec7210_write", 0xb5939522, ""⟩,
    ⟨"nec7210_t1_delay", 0xe0523262, ""⟩,
    ⟨"nec7210_request_system_control", 0xb13233d8, ""⟩,
    ⟨"nec7210_take_control", 0xe73dfa9e, ""⟩,
    ⟨"nec7210_go_to_standby", 0x69a0a77c, ""⟩,
    ⟨"nec7210_interface_clear", 0x87a145df, ""⟩,
    ⟨"nec7210_remote_enable", 0xbb388460, ""⟩,
    ⟨"nec7210_release_rfd_holdoff", 0x47d46f6d, ""⟩,
    ⟨"nec7210_return_to_local", 0x817fa0ec, ""⟩,
    ⟨"nec7210_interrupt", 0xfbc8091c, ""⟩,
    ⟨"nec7210_interrupt_have_status", 0x21fe805f, ""⟩ ]

/-- The array `____versions` of `nec7210.mod.c`: the adjacent string literals of its
initialiser, one per source line. -/
def ____versions : List Nat := cArray
  [ "\x14\x00\x00\x00\xbf\x0f\x54\x92",
    "finish_wait\x00",
    "\x20\x00\x00\x00\x95\xd4\x26\x8c",
    "prepare_to_wait_event\x00\x00\x00",
    "\x14\x00\x00\x00\x44\x43\x96\xe2",
    "__wake_up\x00\x00\x00",
    "\x20\x00\x00\x00\x0b\x05\xdb\x34",
    "_raw_spin_lock_irqsave\x00\x00",
    "\x14\x00\x00\x00\xbb\x6d\xfb\xbd",
    "__fentry__\x00\x00",
    "\x24\x00\x00\x00\x97\x70\x48\x65",
    "__x86_indirect_thunk_rax\x00\x00\x00\x00",
    "\x10\x00\x00\x00\x7e\x3a\x2c\x12",
    "_printk\x00",
    "\x1c\x00\x00\x00\xad\x8a\xdd\x8d",
    "schedule_timeout\x00\x00\x00\x00",
    "\x14\x00\x00\x00\x51\x0e\x00\x01",
    "schedule\x00\x00\x00\x00",
    "\x1c\x00\x00\x00\xcb\xf6\xfd\xf0",
    "__stack_chk_fail\x00\x00\x00\x00",
    "\x18\x00\x00\x00\xa2\xe8\x6d\x4e",
    "const_pcpu_hot\x00\x00",
    "\x28\x00\x00\x00\xb3\x1c\xa2\x87",
    "__ubsan_handle_out_of_bounds\x00\x00\x00\x00",
    "\x18\x00\x00\x00\x75\x79\x48\xfe",
    "init_wait_entry\x00",
    "\x24\x00\x00\x00\x70\xce\x5c\xd3",
    "_raw_spin_unlock_irqrestore\x00",
    "\x1c\x00\x00\x00\xca\x39\x82\x5b",
    "__x86_return_thunk\x00\x00",
    "\x18\x00\x00\x00\xf3\x60\x9c\xbe",
    "push_gpib_event\x00",
    "\x18\x00\x00\x00\xd6\xdf\xe3\xea",
    "__const_udelay\x00\x00",
    "\x20\x00\x00\x00\x5d\x7b\xc1\xe2",
    "__SCT__might_resched\x00\x00\x00\x00",
    "\x18\x00\x00\x00\xde\x9f\x8a\x25",
    "module_layout\x00\x00\x00",
    "\x00\x00\x00\x00\x00\x00\x00\x00" ]

end nec7210

namespace ni_usb_gpib

/-- The `KSYMTAB_FUNC(name, sec, ns)` lines of `ni_usb_gpib.mod.c`, in source order. -/
def KSYMTAB_FUNC : List KsymtabEntry :=
  []

/-- The `SYMBOL_CRC(sym, crc, sec)` lines of `ni_usb_gpib.mod.c`, in source order. -/
def SYMBOL_CRC : List CrcEntry :=
  []

/-- The array `____versions` of `ni_usb_gpib.mod.c`: the adjacent string literals of its
initialiser, one per source line. -/
def ____versions : List Nat := cArray
  [ "\x14\x00\x00\x00\xbb\x6d\xfb\xbd",
    "__fentry__\x00\x00",
    "\x1c\x00\x00\x00\xca\x39\x82\x5b",
    "__x86_return_thunk\x00\x00",
    "\x10\x00\x00\x00\x7e\x3a\x2c\x12",
    "_printk\x00",
    "\x0c\x00\x00\x00\x66\x69\x2a\xcf",
    "up\x00\x00",
    "\x14\x00\x00\x00\x4b\x8d\xfa\x4d",
    "mutex_lock\x00\x00",
    "\x18\x00\x00\x00\xac\xd5\xa6\x21",
    "usb_alloc_urb\x00\x00\x00",
    "\x18\x00\x00\x00\xf3\xe8\xf3\x11",
    "usb_submit_urb\x00\x00",
    "\x18\x00\x00\x00\x38\xf0\x13\x32",
    "mutex_unlock\x00\x00\x00\x00",
    "\x10\x00\x00\x00\xca\xaf\x26\x66",
    "down\x00\x00\x00\x00",
    "\x1c\x00\x00\x00\xdc\x90\xee\x82",
    "timer_delete_sync\x00\x00\x00",
    "\x18\x00\x00\x00\x1e\x83\x0c\x65",
    "usb_free_urb\x00\x00\x00\x00",
    "\x1c\x00\x00\x00\x8f\x18\x02\x7f",
    "__msecs_to_jiffies\x00\x00",
    "\x10\x00\x00\x00\xa6\x50\xba\x15",
    "jiffies\x00",
    "\x14\x00\x00\x00\xb8\x83\x8c\xc3",
    "mod_timer\x00\x00\x00",
    "\x18\x00\x00\x00\x2f\x96\x28\x47",
    "usb_kill_urb\x00\x00\x00\x00",
    "\x18\x00\x00\x00\xcd\x71\x07\x58",
    "usb_control_msg\x00",
    "\x1c\x00\x00\x00\x73\xe5\xd0\x6b",
    "down_interruptible\x00\x00",
    "\x1c\x00\x00\x00\x63\xa5\x03\x4c",
    "random_kmalloc_seed\x00",
    "\x18\x00\x00\x00\xaf\xfc\x16\x7b",
    "kmalloc_caches\x00\x00",
    "\x20\x00\x00\x00\xee\xfb\xb4\x10",
    "__kmalloc_cache_noprof\x00\x00",
    "\x10\x00\x00\x00\xba\x0c\x7a\x03",
    "kfree\x00\x00\x00",
    "\x20\x00\x00\x00\x0b\x05\xdb\x34",
    "_raw_spin_lock_irqsave\x00\x00",
    "\x24\x00\x00\x00\x70\xce\x5c\xd3",
    "_raw_spin_unlock_irqrestore\x00",
    "\x14\x00\x00\x00\x44\x43\x96\xe2",
    "__wake_up\x00\x00\x00",
    "\x20\x00\x00\x00\xfe\x05\x50\xcc",
    "msleep_interruptible\x00\x00\x00\x00",
    "\x1c\x00\x00\x00\xe8\x75\xa3\xef",
    "usb_register_driver\x00",
    "\x20\x00\x00\x00\x8f\x87\x2d\x44",
    "gpib_register_driver\x00\x00\x00\x00",
    "\x28\x00\x00\x00\xb3\x1c\xa2\x87",
    "__ubsan_handle_out_of_bounds\x00\x00\x00\x00",
    "\x20\x00\x00\x00\x74\xf9\xc1\x55",
    "gpib_unregister_driver\x00\x00",
    "\x18\x00\x00\x00\x55\xd5\xa4\xe2",
    "usb_deregister\x00\x00",
    "\x10\x00\x00\x00\xf9\x82\xa4\xf9",
    "msleep\x00\x00",
    "\x1c\x00\x00\x00\x91\xc9\xc5\x52",
    "__kmalloc_noprof\x00\x00\x00\x00",
    "\x1c\x00\x00\x00\xcb\xf6\xfd\xf0",
    "__stack_chk_fail\x00\x00\x00\x00",
    "\x14\x00\x00\x00\x20\x5d\xe0\x4a",
    "usb_get_dev\x00",
    "\x14\x00\x00\x00\x6e\x4a\x6e\x65",
    "snprintf\x00\x00\x00\x00",
    "\x14\x00\x00\x00\xe1\x3e\x82\xc5",
    "usb_put_dev\x00",
    "\x14\x00\x00\x00\xb0\x75\x9e\x71",
    "_dev_info\x00\x00\x00",
    "\x18\x00\x00\x00\x9f\x0c\xfb\xce",
    "__mutex_init\x00\x00\x00\x00",
    "\x20\x00\x00\x00\xd7\xac\x4f\x31",
    "gpib_match_device_path\x00\x00",
    "\x20\x00\x00\x00\x2f\xde\x60\x9a",
    "usb_reset_configuration\x00",
    "\x18\x00\x00\x00\x39\x63\xf4\xc6",
    "init_timer_key\x00\x00",
    "\x18\x00\x00\x00\xbf\xd3\x9e\xbb",
    "mutex_trylock\x00\x00\x00",
    "\x10\x00\x00\x00\x38\xdf\xac\x69",
    "memcpy\x00\x00",
    "\x18\x00\x00\x00\xde\x9f\x8a\x25",
    "module_layout\x00\x00\x00",
    "\x00\x00\x00\x00\x00\x00\x00\x00" ]

end ni_usb_gpib

namespace gpib_common

/-- The `KSYMTAB_FUNC(name, sec, ns)` lines of `gpib_common.mod.c`, in source order. -/
def KSYMTAB_FUNC : List KsymtabEntry :=
  [ ⟨"gpib_register_driver", "", ""⟩,
    ⟨"gpib_unregister_driver", "", ""⟩,
    ⟨"gpib_pci_get_device", "", ""⟩,
    ⟨"gpib_pci_get_subsys", "", ""⟩,
    ⟨"gpib_match_device_path", "", ""⟩,
    ⟨"writeb_wrapper", "", ""⟩,
    ⟨"readb_wrapper", "", ""⟩,
    ⟨"outb_wrapper", "", ""⟩,
    ⟨"inb_wrapper", "", ""⟩,
    ⟨"writew_wrapper", "", ""⟩,
    ⟨"readw_wrapper", "", ""⟩,
    ⟨"outw_wrapper", "", ""⟩,
    ⟨"inw_wrapper", "", ""⟩,
    ⟨"gpib_request_pseudo_irq", "", ""⟩,
    ⟨"gpib_free_pseudo_irq", "", ""⟩,
    ⟨"push_gpib_event", "", ""⟩ ]

/-- The `SYMBOL_CRC(sym, crc, sec)` lines of `gpib_common.mod.c`, in source order. -/
def SYMBOL_CRC : List CrcEntry :=
  [ ⟨"gpib_register_driver", 0x442d878f, ""⟩,
    ⟨"gpib_unregister_driver", 0x55c1f974, ""⟩,
    ⟨"gpib_pci_get_device", 0x9d2f23c8, ""⟩,
    ⟨"gpib_pci_get_subsys", 0x20db315a, ""⟩,
    ⟨"gpib_match_device_path", 0x314facd7, ""⟩,
    ⟨"writeb_wrapper", 0x92df39db, ""⟩,
    ⟨"readb_wrapper", 0x69279cb9, ""⟩,
    ⟨"outb_wrapper", 0x881e5c01, ""⟩,
    ⟨"inb_wrapper", 0x868fcdb4, ""⟩,
    ⟨"writew_wrapper", 0xdebed785, ""⟩,
    ⟨"readw_wrapper", 0xafe00970, ""⟩,
    ⟨"outw_wrapper", 0xc47fb25f, ""⟩,
    ⟨"inw_wrapper", 0x4048587d, ""⟩,
    ⟨"gpib_request_pseudo_irq", 0xff37c379, ""⟩,
    ⟨"gpib_free_pseudo_irq", 0x9f94bfdc, ""⟩,
    ⟨"push_gpib_event", 0xbe9c60f3, ""⟩ ]

/-- The array `____versions` of `gpib_common.mod.c`: the adjacent string literals of its
initialiser, one per source line. -/
def ____versions : List Nat := cArray
  [ "\x18\x00\x00\x00\x88\x2c\x5e\xf1",
    "try_module_get\x00\x00",
    "\x1c\x00\x00\x00\x48\x9f\xdb\x88",
    "__check_object_size\x00",
    "\x14\x00\x00\x00\xd0\x6b\x7d\x9e",
    "__udelay\x00\x00\x00\x00",
    "\x18\x00\x00\x00\xc2\x9c\xc4\x13",
    "_copy_from_user\x00",
    "\x14\x00\x00\x00\x6e\x4a\x6e\x65",
    "snprintf\x00\x00\x00\x00",
    "\x14\x00\x00\x00\xbf\x0f\x54\x92",
    "finish_wait\x00",
    "\x18\x00\x00\x00\x1c\xcf\x21\xb2",
    "pci_get_device\x00\x00",
    "\x18\x00\x00\x00\xbd\xb5\xbf\x6f",
    "class_destroy\x00\x00\x00",
    "\x10\x00\x00\x00\xba\x0c\x7a\x03",
    "kfree\x00\x00\x00",
    "\x1c\x00\x00\x00\xf7\xd2\x15\x6f",
    "kobject_get_path\x00\x00\x00\x00",
    "\x20\x00\x00\x00\x95\xd4\x26\x8c",
    "prepare_to_wait_event\x00\x00\x00",
    "\x1c\x00\x00\x00\x6e\x64\xf7\xb3",
    "kthread_should_stop\x00",
    "\x1c\x00\x00\x00\xdc\x90\xee\x82",
    "timer_delete_sync\x00\x00\x00",
    "\x14\x00\x00\x00\x44\x43\x96\xe2",
    "__wake_up\x00\x00\x00",
    "\x20\x00\x00\x00\x0b\x05\xdb\x34",
    "_raw_spin_lock_irqsave\x00\x00",
    "\x18\x00\x00\x00\x64\xbd\x8f\xba",
    "_raw_spin_lock\x00\x00",
    "\x14\x00\x00\x00\xbb\x6d\xfb\xbd",
    "__fentry__\x00\x00",
    "\x18\x00\x00\x00\x89\xbc\x9a\x96",
    "wake_up_process\x00",
    "\x24\x00\x00\x00\x97\x70\x48\x65",
    "__x86_indirect_thunk_rax\x00\x00\x00\x00",
    "\x10\x00\x00\x00\x7e\x3a\x2c\x12",
    "_printk\x00",
    "\x14\x00\x00\x00\x51\x0e\x00\x01",
    "schedule\x00\x00\x00\x00",
    "\x1c\x00\x00\x00\xcb\xf6\xfd\xf0",
    "__stack_chk_fail\x00\x00\x00\x00",
    "\x20\x00\x00\x00\xe9\x0d\x1d\x44",
    "__kmalloc_large_noprof\x00\x00",
    "\x10\x00\x00\x00\x94\xb6\x16\xa9",
    "strnlen\x00",
    "\x18\x00\x00\x00\xa2\xe8\x6d\x4e",
    "const_pcpu_hot\x00\x00",
    "\x10\x00\x00\x00\x89\xbc\xcb\xc6",
    "capable\x00",
    "\x14\x00\x00\x00\x6b\x5c\x5d\x8f",
    "module_put\x00\x00",
    "\x28\x00\x00\x00\xb3\x1c\xa2\x87",
    "__ubsan_handle_out_of_bounds\x00\x00\x00\x00",
    "\x18\x00\x00\x00\x75\x79\x48\xfe",
    "init_wait_entry\x00",
    "\x14\x00\x00\x00\x38\x24\xc3\xb0",
    "_dev_err\x00\x00\x00\x00",
    "\x14\x00\x00\x00\xb8\x83\x8c\xc3",
    "mod_timer\x00\x00\x00",
    "\x18\x00\x00\x00\x91\x7d\x78\x49",
    "device_create\x00\x00\x00",
    "\x18\x00\x00\x00\x4f\x1e\x1f\x59",
    "class_create\x00\x00\x00\x00",
    "\x1c\x00\x00\x00\x63\xa5\x03\x4c",
    "random_kmalloc_seed\x00",
    "\x18\x00\x00\x00\xa9\xa1\x2f\x1b",
    "vmalloc_noprof\x00\x00",
    "\x14\x00\x00\x00\x4b\x8d\xfa\x4d",
    "mutex_lock\x00\x00",
    "\x18\x00\x00\x00\x55\xc6\x6d\xcc",
    "kthread_stop\x00\x00\x00\x00",
    "\x18\x00\x00\x00\x9f\x0c\xfb\xce",
    "__mutex_init\x00\x00\x00\x00",
    "\x24\x00\x00\x00\x75\x08\x94\x89",
    "mutex_lock_interruptible\x00\x00\x00\x00",
    "\x18\x00\x00\x00\xb5\x79\xca\x75",
    "__fortify_panic\x00",
    "\x24\x00\x00\x00\x70\xce\x5c\xd3",
    "_raw_spin_unlock_irqrestore\x00",
    "\x18\x00\x00\x00\xf0\xd5\xca\x1e",
    "pci_get_subsys\x00\x00",
    "\x10\x00\x00\x00\xc5\x8f\x57\xfb",
    "memset\x00\x00",
    "\x1c\x00\x00\x00\xca\x39\x82\x5b",
    "__x86_return_thunk\x00\x00",
    "\x18\x00\x00\x00\xe1\xbe\x10\x6b",
    "_copy_to_user\x00\x00\x00",
    "\x20\x00\x00\x00\x54\xea\xa5\xd9",
    "__init_waitqueue_head\x00\x00\x00",
    "\x10\x00\x00\x00\x5a\x25\xd5\xe2",
    "strcmp\x00\x00",
    "\x10\x00\x00\x00\xa6\x50\xba\x15",
    "jiffies\x00",
    "\x20\x00\x00\x00\xfa\xea\x96\x1a",
    "kthread_create_on_node\x00\x00",
    "\x10\x00\x00\x00\xa7\xb0\x39\x2d",
    "kstrdup\x00",
    "\x10\x00\x00\x00\x97\x82\x9e\x99",
    "vfree\x00\x00\x00",
    "\x18\x00\x00\x00\x38\xf0\x13\x32",
    "mutex_unlock\x00\x00\x00\x00",
    "\x18\x00\x00\x00\x39\x63\xf4\xc6",
    "init_timer_key\x00\x00",
    "\x18\x00\x00\x00\xd6\xdf\xe3\xea",
    "__const_udelay\x00\x00",
    "\x1c\x00\x00\x00\xfc\x82\xf1\x92",
    "__register_chrdev\x00\x00\x00",
    "\x18\x00\x00\x00\x42\xc4\xff\xb8",
    "device_destroy\x00\x00",
    "\x20\x00\x00\x00\xee\xfb\xb4\x10",
    "__kmalloc_cache_noprof\x00\x00",
    "\x1c\x00\x00\x00\x34\x4b\xb5\xb5",
    "_raw_spin_unlock\x00\x00\x00\x00",
    "\x20\x00\x00\x00\x5d\x7b\xc1\xe2",
    "__SCT__might_resched\x00\x00\x00\x00",
    "\x18\x00\x00\x00\xaf\xfc\x16\x7b",
    "kmalloc_caches\x00\x00",
    "\x1c\x00\x00\x00\xd8\x23\x4f\xa2",
    "__request_module\x00\x00\x00\x00",
    "\x1c\x00\x00\x00\xc0\xfb\xc3\x6b",
    "__unregister_chrdev\x00",
    "\x18\x00\x00\x00\xde\x9f\x8a\x25",
    "module_layout\x00\x00\x00",
    "\x00\x00\x00\x00\x00\x00\x00\x00" ]

end gpib_common

namespace tms9914

/-- The `KSYMTAB_FUNC(name, sec, ns)` lines of `tms9914.mod.c`, in source order. -/
def KSYMTAB_FUNC : List KsymtabEntry :=
  [ ⟨"tms9914_command", "", ""⟩,
    ⟨"tms9914_board_reset", "_gpl", ""⟩,
    ⟨"tms9914_online", "_gpl", ""⟩,
    ⟨"tms9914_ioport_read_byte", "_gpl", ""⟩,
    ⟨"tms9914_ioport_write_byte", "_gpl", ""⟩,
    ⟨"tms9914_iomem_read_byte", "_gpl", ""⟩,
    ⟨"tms9914_iomem_write_byte", "_gpl", ""⟩,
    ⟨"tms9914_read", "", ""⟩,
    ⟨"tms9914_enable_eos", "", ""⟩,
    ⟨"tms9914_disable_eos", "", ""⟩,
    ⟨"tms9914_serial_poll_response", "", ""⟩,
    ⟨"tms9914_serial_poll_status", "", ""⟩,
    ⟨"tms9914_parallel_poll", "", ""⟩,
    ⟨"tms9914_parallel_poll_configure", "", ""⟩,
    ⟨"tms9914_parallel_poll_response", "", ""⟩,
    ⟨"tms9914_primary_address", "", ""⟩,
    ⟨"tms9914_secondary_address", "", ""⟩,
    ⟨"tms9914_update_status", "", ""⟩,
    ⟨"tms9914_line_status", "", ""⟩,
    ⟨"tms9914_write", "", ""⟩,
    ⟨"tms9914_t1_delay", "_gpl", ""⟩,
    ⟨"tms9914_request_system_control", "_gpl", ""⟩,
    ⟨"tms9914_take_control", "_gpl", ""⟩,
    ⟨"tms9914_take_control_workaround", "_gpl", ""⟩,
    ⟨"tms9914_go_to_standby", "_gpl", ""⟩,
    ⟨"tms9914_interface_clear", "_gpl", ""⟩,
    ⟨"tms9914_remote_enable", "_gpl", ""⟩,
    ⟨"tms9914_return_to_local", "_gpl", ""⟩,
    ⟨"tms9914_set_holdoff_mode", "_gpl", ""⟩,
    ⟨"tms9914_release_holdoff", "_gpl", ""⟩,
    ⟨"tms9914_interrupt", "", ""⟩,
    ⟨"tms9914_interrupt_have_status", "", ""⟩ ]

/-- The `SYMBOL_CRC(sym, crc, sec)` lines of `tms9914.mod.c`, in source order. -/
def SYMBOL_CRC : List CrcEntry :=
  [ ⟨"tms9914_command", 0x1e8e9cbd, ""⟩,
    ⟨"tms9914_board_reset", 0x9fef51c3, "_gpl"⟩,
    ⟨"tms9914_online", 0xfa3481d3, "_gpl"⟩,
    ⟨"tms9914_ioport_read_byte", 0x72aafeb4, "_gpl"⟩,
    ⟨"tms9914_ioport_write_byte", 0xa45179f0, "_gpl"⟩,
    ⟨"tms9914_iomem_read_byte", 0x350d469e, "_gpl"⟩,
    ⟨"tms9914_iomem_write_byte", 0xec119222, "_gpl"⟩,
    ⟨"tms9914_read", 0xf98de409, ""⟩,
    ⟨"tms9914_enable_eos", 0xf7eee312, ""⟩,
    ⟨"tms9914_disable_eos", 0x8c3c5f8c, ""⟩,
    ⟨"tms9914_serial_poll_response", 0x7720daab, ""⟩,
    ⟨"tms9914_serial_poll_status", 0x4dd441e0, ""⟩,
    ⟨"tms9914_parallel_poll", 0x566b641e, ""⟩,
    ⟨"tms9914_parallel_poll_configure", 0x94817651, ""⟩,
    ⟨"tms9914_parallel_poll_response", 0x73e31e4f, ""⟩,
    ⟨"tms9914_primary_address", 0x87732c5b, ""⟩,
    ⟨"tms9914_secondary_address", 0xebedb046, ""⟩,
    ⟨"tms9914_update_status", 0x9ca53198, ""⟩,
    ⟨"tms9914_line_status", 0x9a69ad11, ""⟩,
    ⟨"tms9914_write", 0x819c32d0, ""⟩,
    ⟨"tms9914_t1_delay", 0x45039683, "_gpl"⟩,
    ⟨"tms9914_request_system_control", 0x78d8e1dc, "_gpl"⟩,
    ⟨"tms9914_take_control", 0x7829563e, "_gpl"⟩,
    ⟨"tms9914_take_control_workaround", 0x80953c7b, "_gpl"⟩,
    ⟨"tms9914_go_to_standby", 0x044ae45a, "_gpl"⟩,
    ⟨"tms9914_interface_clear", 0x23b50ecc, "_gpl"⟩,
    ⟨"tms9914_remote_enable", 0x59da4c2e, "_gpl"⟩,
    ⟨"tms9914_return_to_local", 0x940d465b, "_gpl"⟩,
    ⟨"tms9914_set_holdoff_mode", 0xe309d453, "_gpl"⟩,
    ⟨"tms9914_release_holdoff", 0xea3547b1, "_gpl"⟩,
    ⟨"tms9914_interrupt", 0xed926613, ""⟩,
    ⟨"tms9914_interrupt_have_status", 0x52ec7c30, ""⟩ ]

/-- The array `____versions` of `tms9914.mod.c`: the adjacent string literals of its
initialiser, one per source line. -/
def ____versions : List Nat := cArray
  [ "\x14\x00\x00\x00\xbf\x0f\x54\x92",
    "finish_wait\x00",
    "\x20\x00\x00\x00\x95\xd4\x26\x8c",
    "prepare_to_wait_event\x00\x00\x00",
    "\x14\x00\x00\x00\x44\x43\x96\xe2",
    "__wake_up\x00\x00\x00",
    "\x20\x00\x00\x00\x0b\x05\xdb\x34",
    "_raw_spin_lock_irqsave\x00\x00",
    "\x14\x00\x00\x00\xbb\x6d\xfb\xbd",
    "__fentry__\x00\x00",
    "\x24\x00\x00\x00\x97\x70\x48\x65",
    "__x86_indirect_thunk_rax\x00\x00\x00\x00",
    "\x10\x00\x00\x00\x7e\x3a\x2c\x12",
    "_printk\x00",
    "\x14\x00\x00\x00\x51\x0e\x00\x01",
    "schedule\x00\x00\x00\x00",
    "\x1c\x00\x00\x00\xcb\xf6\xfd\xf0",
    "__stack_chk_fail\x00\x00\x00\x00",
    "\x18\x00\x00\x00\x75\x79\x48\xfe",
    "init_wait_entry\x00",
    "\x24\x00\x00\x00\x70\xce\x5c\xd3",
    "_raw_spin_unlock_irqrestore\x00",
    "\x1c\x00\x00\x00\xca\x39\x82\x5b",
    "__x86_return_thunk\x00\x00",
    "\x18\x00\x00\x00\xf3\x60\x9c\xbe",
    "push_gpib_event\x00",
    "\x2c\x00\x00\x00\x61\xe5\x48\xa6",
    "__ubsan_handle_shift_out_of_bounds\x00\x00",
    "\x18\x00\x00\x00\xd6\xdf\xe3\xea",
    "__const_udelay\x00\x00",
    "\x24\x00\x00\x00\xf9\xa4\xcc\x66",
    "__x86_indirect_thunk_rcx\x00\x00\x00\x00",
    "\x20\x00\x00\x00\x5d\x7b\xc1\xe2",
    "__SCT__might_resched\x00\x00\x00\x00",
    "\x18\x00\x00\x00\xde\x9f\x8a\x25",
    "module_layout\x00\x00\x00",
    "\x00\x00\x00\x00\x00\x00\x00\x00" ]

end tms9914
/-- The seven modules of the stack, named after their translation units. -/
inductive Module where
  | cec_gpib
  | gpib_bitbang
  | hp82335
  | nec7210
  | ni_usb_gpib
  | gpib_common
  | tms9914
  deriving DecidableEq, Repr

/-- All seven modules. -/
def Module.all : List Module :=
  [.cec_gpib, .gpib_bitbang, .hp82335, .nec7210, .ni_usb_gpib, .gpib_common, .tms9914]

/-- The `____versions` array of a module. -/
def versions : Module → List Nat
  | .cec_gpib => cec_gpib.____versions
  | .gpib_bitbang => gpib_bitbang.____versions
  | .hp82335 => hp82335.____versions
  | .nec7210 => nec7210.____versions
  | .ni_usb_gpib => ni_usb_gpib.____versions
  | .gpib_common => gpib_common.____versions
  | .tms9914 => tms9914.____versions

/-- The `KSYMTAB_FUNC` entries of a module. -/
def ksymtab : Module → List KsymtabEntry
  | .cec_gpib => cec_gpib.KSYMTAB_FUNC
  | .gpib_bitbang => gpib_bitbang.KSYMTAB_FUNC
  | .hp82335 => hp82335.KSYMTAB_FUNC
  | .nec7210 => nec7210.KSYMTAB_FUNC
  | .ni_usb_gpib => ni_usb_gpib.KSYMTAB_FUNC
  | .gpib_common => gpib_common.KSYMTAB_FUNC
  | .tms9914 => tms9914.KSYMTAB_FUNC

/-- The `SYMBOL_CRC` entries of a module. -/
def symbolCrc : Module → List CrcEntry
  | .cec_gpib => cec_gpib.SYMBOL_CRC
  | .gpib_bitbang => gpib_bitbang.SYMBOL_CRC
  | .hp82335 => hp82335.SYMBOL_CRC
  | .nec7210 => nec7210.SYMBOL_CRC
  | .ni_usb_gpib => ni_usb_gpib.SYMBOL_CRC
  | .gpib_common => gpib_common.SYMBOL_CRC
  | .tms9914 => tms9914.SYMBOL_CRC

/-! ## Reading the import table -/

/-- The little-endian 32-bit value held in the first four bytes of a byte
sequence, when it has four bytes. -/
def le32 : List Nat → Option Nat
  | b0 :: b1 :: b2 :: b3 :: _ => some (b0 + 256 * b1 + 65536 * b2 + 16777216 * b3)
  | _ => none

/-- One record met while walking a `____versions` array: the offset at which it
starts, the value of its length prefix, and the `len` bytes it occupies
(length prefix included). -/
structure ImportRecord where
  off : Nat
  len : Nat
  bytes : List Nat
  deriving DecidableEq, Repr

/-- The value stored in bytes 4..7 of a record, when the record has them. -/
def ImportRecord.crc (r : ImportRecord) : Option Nat := le32 (r.bytes.drop 4)

/-- Bytes 8..len-1 of a record: the name with its NUL bytes. -/
def ImportRecord.nameRegion (r : ImportRecord) : List Nat := r.bytes.drop 8

/-- The symbol name of a record: the bytes of the name region before its first
NUL. -/
def ImportRecord.name (r : ImportRecord) : List Nat :=
  r.nameRegion.takeWhile (fun b => b != 0)

/-- The first `n` elements of a list and the rest, when the list has at least
`n` elements. -/
def splitExact : Nat → List Nat → Option (List Nat × List Nat)
  | 0, l => some ([], l)
  | _ + 1, [] => none
  | n + 1, b :: l =>
    match splitExact n l with
    | none => none
    | some (front, back) => some (b :: front, back)

/-- Walk of a versions array.  `rest` is the part of the array from offset `off`
on.  At each position the little-endian length prefix is read; a prefix of zero
must start eight zero bytes, which end the walk at that offset; any other prefix
must not reach past the end of the array, yields a record, and moves the walk
forward by that many bytes.  The result is the list of records and the offset of
the terminator, or `none` when the walk leaves the array, meets a zero prefix
that is not the terminator, or runs out of `fuel`. -/
def walk : Nat → Nat → List Nat → Option (List ImportRecord × Nat)
  | 0, _, _ => none
  | fuel + 1, off, rest =>
    match le32 rest with
    | none => none
    | some len =>
      if len = 0 then
        if rest.take 8 = [0, 0, 0, 0, 0, 0, 0, 0] then some ([], off) else none
      else
        match splitExact len rest with
        | none => none
        | some (bytes, rest2) =>
          match walk fuel (off + len) rest2 with
          | none => none
          | some (rs, t) => some (⟨off, len, bytes⟩ :: rs, t)

/-- The walk of a whole array from offset 0.  Every step with a non-zero prefix
consumes at least one byte, so the size of the array is enough fuel. -/
def parseVersions (arr : List Nat) : Option (List ImportRecord × Nat) :=
  walk arr.length 0 arr

/-- The import records of a module: those met by the walk of its array. -/
def records (M : Module) : List ImportRecord :=
  match parseVersions (versions M) with
  | some (rs, _) => rs
  | none => []

/-- Whether a list of records is laid out back to back from offset `o` up to
offset `t`: each record starts where the previous one ends. -/
def chained : Nat → List ImportRecord → Nat → Bool
  | o, [], t => o == t
  | o, r :: rs, t => r.off == o && chained (o + r.len) rs t

/-- Every `SYMBOL_CRC` entry of the stack, module by module. -/
def stackCrcs : List CrcEntry :=
  symbolCrc .cec_gpib ++ symbolCrc .gpib_bitbang ++ symbolCrc .hp82335 ++ symbolCrc .nec7210 ++
    symbolCrc .ni_usb_gpib ++ symbolCrc .gpib_common ++ symbolCrc .tms9914

/-! ## Parsing to pairs and emitting again -/

/-- The (name, crc) pairs of a list of records, when every record has a CRC
field. -/
def pairsOf : List ImportRecord → Option (List (List Nat × Nat))
  | [] => some []
  | r :: rs =>
    match r.crc, pairsOf rs with
    | some c, some ps => some ((r.name, c) :: ps)
    | _, _ => none

/-- The sequence of (name, crc) pairs of a versions array. -/
def parsePairs (arr : List Nat) : Option (List (List Nat × Nat)) :=
  match parseVersions arr with
  | some (rs, _) => pairsOf rs
  | none => none

/-- The four bytes of a 32-bit value, least significant first. -/
def le32Bytes (n : Nat) : List Nat :=
  [n % 256, n / 256 % 256, n / 65536 % 256, n / 16777216 % 256]

/-- The total length of a record whose name has `n` bytes when the record is
padded to a multiple of `a`: the least multiple of `a` that holds the 4-byte
length, the 4-byte CRC, the name and its terminating NUL. -/
def paddedLen (a n : Nat) : Nat := (8 + n + 1 + (a - 1)) / a * a

/-- One record in the layout length, CRC, NUL-terminated name, NUL padding, with
the total length padded to a multiple of `a`. -/
def emitRecord (a : Nat) (p : List Nat × Nat) : List Nat :=
  le32Bytes (paddedLen a p.1.length) ++ (le32Bytes p.2 ++
    (p.1 ++ List.replicate (paddedLen a p.1.length - 8 - p.1.length) 0))

/-- The records of a list of pairs, one after the other, padded to multiples of
`a`, followed by the terminator of eight zero bytes. -/
def emitAligned (a : Nat) : List (List Nat × Nat) → List Nat
  | [] => [0, 0, 0, 0, 0, 0, 0, 0]
  | p :: ps => emitRecord a p ++ emitAligned a ps

/-- Emission as the specification words it (section 4.2): little-endian total
length, CRC, and the NUL-terminated name "padded with NUL to make total length a
multiple of 8", then the 8-byte zero terminator. -/
def emitSpec (ps : List (List Nat × Nat)) : List Nat := emitAligned 8 ps

/-! ## Checks used by the proofs -/

/-- Equality test on byte sequences. -/
def beqBytes : List Nat → List Nat → Bool
  | [], [] => true
  | a :: as, b :: bs => Nat.beq a b && beqBytes as bs
  | _, _ => false

/-- A byte sequence read as a number in base 256 on top of `acc`.  Equal
sequences give equal numbers, which is all the proofs use. -/
def bytesKey : List Nat → Nat → Nat
  | [], acc => acc
  | b :: bs, acc => bytesKey bs (acc * 256 + b)

/-- Whether every record whose name has the same number as the symbol of a
`SYMBOL_CRC` entry of the list stores that entry's CRC in its bytes 4..7. -/
def crcsAgree (rs : List ImportRecord) (es : List CrcEntry) : Bool :=
  rs.all fun r => es.all fun e =>
    !Nat.beq (bytesKey r.name 0) (bytesKey (cbytes e.sym) 0) || (r.crc == some e.crc)

/-- Whether an array parses to pairs whose emission with 4-byte padding,
followed by one NUL byte, is the array itself. -/
def roundTrips (arr : List Nat) : Bool :=
  match parsePairs arr with
  | some ps => beqBytes (emitAligned 4 ps ++ [0]) arr
  | none => false

/-! ## Records named in the theorems -/

/-- The first record of `cec_gpib`: `free_irq`, at offset 0, of length 0x14. -/
def freeIrqRecord : ImportRecord :=
  ⟨0, 0x14, cbytes "\x14\x00\x00\x00\x3b\x4a\x51\xc1" ++ cbytes "free_irq\x00\x00\x00\x00"⟩

/-- The second record of `cec_gpib`: `nec7210_read`, at offset 20. -/
def nec7210ReadRecord : ImportRecord :=
  ⟨20, 0x18, cbytes "\x18\x00\x00\x00\xf4\x26\xfa\x39" ++ cbytes "nec7210_read\x00\x00\x00\x00"⟩

/-- The `_printk` record of `cec_gpib`, at offset 488. -/
def printkRecord : ImportRecord :=
  ⟨488, 0x10, cbytes "\x10\x00\x00\x00\x7e\x3a\x2c\x12" ++ cbytes "_printk\x00"⟩

/-- The fourth record of `ni_usb_gpib`: `up`, at offset 64, of length 0x0c. -/
def upRecord : ImportRecord :=
  ⟨64, 0x0c, cbytes "\x0c\x00\x00\x00\x66\x69\x2a\xcf" ++ cbytes "up\x00\x00"⟩

/-! ## Build selectors, header and trailer of a unit -/

/-- The preprocessor selectors that the units test with `#ifdef`. -/
structure Config where
  CONFIG_UNWINDER_ORC : Bool
  CONFIG_MODULE_UNLOAD : Bool
  CONFIG_MITIGATION_RETPOLINE : Bool
  deriving DecidableEq, Repr

/-- The macros that the units use and do not define: the build supplies the
version-magic string, the module name and the architecture block of the
descriptor. -/
structure BuildEnv where
  VERMAGIC_STRING : String
  KBUILD_MODNAME : String
  MODULE_ARCH_INIT : String
  deriving DecidableEq, Repr

/-- The two functions that the initialiser of `__this_module` may name. -/
inductive Sym where
  | init_module
  | cleanup_module
  deriving DecidableEq, Repr

/-- The members of `struct module` that the initialiser of `__this_module` sets.
A member that a designated initialiser leaves out is zero-initialised: `exit` is
`none` then. -/
structure ThisModule where
  name : String
  init : Sym
  exit : Option Sym
  arch : String
  deriving DecidableEq, Repr

/-- The functions that a descriptor refers to. -/
def ThisModule.refs (d : ThisModule) : List Sym := d.init :: d.exit.toList

/-- A top-level line of a unit outside its export and import tables. -/
inductive Item where
  | ORC_HEADER
  | BUILD_SALT
  | BUILD_LTO_INFO
  | MODULE_INFO (tag : String) (info : String)
  | this_module (d : ThisModule)
  | MODULE_ALIAS (value : String)
  deriving DecidableEq, Repr

/-- The definition of `__this_module` (lines 20 to 28, the same in all seven
units): `.exit = cleanup_module` stands under `#ifdef CONFIG_MODULE_UNLOAD`. -/
def __this_module (cfg : Config) (env : BuildEnv) : ThisModule :=
  ⟨env.KBUILD_MODNAME, .init_module,
    if cfg.CONFIG_MODULE_UNLOAD then some .cleanup_module else none,
    env.MODULE_ARCH_INIT⟩

/-- Lines 9 to 32, the same in all seven units: `ORC_HEADER` under
`#ifdef CONFIG_UNWINDER_ORC`, the two build markers, the info records `vermagic`
and `name`, the descriptor, and `MODULE_INFO(retpoline, "Y")` under
`#ifdef CONFIG_MITIGATION_RETPOLINE`. -/
def header (cfg : Config) (env : BuildEnv) : List Item :=
  (if cfg.CONFIG_UNWINDER_ORC then [.ORC_HEADER] else []) ++
    ([.BUILD_SALT, .BUILD_LTO_INFO,
      .MODULE_INFO "vermagic" env.VERMAGIC_STRING,
      .MODULE_INFO "name" env.KBUILD_MODNAME,
      .this_module (__this_module cfg env)] ++
    (if cfg.CONFIG_MITIGATION_RETPOLINE then [.MODULE_INFO "retpoline" "Y"] else []))

/-- The lines of `cec_gpib.mod.c` after the array `____versions` (lines 138 to 142). -/
def cec_gpib.trailer : List Item :=
  [ .MODULE_INFO "depends" "nec7210,gpib_common",
    .MODULE_ALIAS "pci:v000012FCd00005CECsv*sd00009050bc*sc*i*",
    .MODULE_INFO "srcversion" "0AA193C0D140E10F77D61A4" ]

/-- The lines of `gpib_bitbang.mod.c` after the array `____versions` (lines 114 to 117). -/
def gpib_bitbang.trailer : List Item :=
  [ .MODULE_INFO "depends" "gpib_common",
    .MODULE_INFO "srcversion" "DD8C7F4091DD2FC556FCC92" ]

/-- The lines of `hp82335.mod.c` after the array `____versions` (lines 132 to 135). -/
def hp82335.trailer : List Item :=
  [ .MODULE_INFO "depends" "tms9914,gpib_common",
    .MODULE_INFO "srcversion" "9C5AC924FC9111D819AE4B9" ]

/-- The lines of `nec7210.mod.c` after the array `____versions` (lines 152 to 155). -/
def nec7210.trailer : List Item :=
  [ .MODULE_INFO "depends" "gpib_common",
    .MODULE_INFO "srcversion" "6AEEF3E931FE10B7BF12A2F" ]

/-- The lines of `ni_usb_gpib.mod.c` after the array `____versions` (lines 128 to 136). -/
def ni_usb_gpib.trailer : List Item :=
  [ .MODULE_INFO "depends" "gpib_common",
    .MODULE_ALIAS "usb:v3923p702Ad*dc*dsc*dp*ic*isc*ip*in*",
    .MODULE_ALIAS "usb:v3923p709Bd*dc*dsc*dp*ic*isc*ip*in*",
    .MODULE_ALIAS "usb:v3923p7618d*dc*dsc*dp*ic*isc*ip*in00*",
    .MODULE_ALIAS "usb:v3923p725Cd*dc*dsc*dp*ic*isc*ip*in*",
    .MODULE_ALIAS "usb:v3923p725Dd*dc*dsc*dp*ic*isc*ip*in*",
    .MODULE_INFO "srcversion" "01145208B2106C5346843DD" ]

/-- The lines of `gpib_common.mod.c` after the array `____versions` (lines 198 to 201). -/
def gpib_common.trailer : List Item :=
  [ .MODULE_INFO "depends" "",
    .MODULE_INFO "srcversion" "67A5460058BF601CAAA3CDF" ]

/-- The lines of `tms9914.mod.c` after the array `____versions` (lines 140 to 143). -/
def tms9914.trailer : List Item :=
  [ .MODULE_INFO "depends" "gpib_common",
    .MODULE_INFO "srcversion" "2AE12A36E49CFCB96020460" ]

/-- The lines of a module after its array `____versions`. -/
def trailer : Module → List Item
  | .cec_gpib => cec_gpib.trailer
  | .gpib_bitbang => gpib_bitbang.trailer
  | .hp82335 => hp82335.trailer
  | .nec7210 => nec7210.trailer
  | .ni_usb_gpib => ni_usb_gpib.trailer
  | .gpib_common => gpib_common.trailer
  | .tms9914 => tms9914.trailer

/-- The lines of a unit outside its tables, in source order.  The `KSYMTAB_FUNC`
and `SYMBOL_CRC` lines and the array `____versions` stand between header and
trailer; they are `ksymtab`, `symbolCrc` and `versions`. -/
def items (M : Module) (cfg : Config) (env : BuildEnv) : List Item :=
  header cfg env ++ trailer M

/-- One record of the module-info section: `tag=info`. -/
structure InfoRecord where
  tag : String
  info : String
  deriving DecidableEq, Repr

/-- Modelled from the spec: the macros `MODULE_INFO` and `MODULE_ALIAS` are
defined outside the sources.  By sections 3, 4.6 and 6.2 `MODULE_INFO(tag, info)`
emits the record `tag=info` and an alias is the record with key `alias`; by
section 4.5 the build markers go to sections of their own, and the descriptor is
no info record. -/
def Item.infoRecord : Item → Option InfoRecord
  | .MODULE_INFO tag info => some ⟨tag, info⟩
  | .MODULE_ALIAS value => some ⟨"alias", value⟩
  | _ => none

/-- The alias string of a `MODULE_ALIAS` line. -/
def Item.aliasString : Item → Option String
  | .MODULE_ALIAS value => some value
  | _ => none

/-- The descriptor of a descriptor line. -/
def Item.descriptor : Item → Option ThisModule
  | .this_module d => some d
  | _ => none

/-- The info records that a unit emits, in source order. -/
def moduleInfo (M : Module) (cfg : Config) (env : BuildEnv) : List InfoRecord :=
  (items M cfg env).filterMap Item.infoRecord

/-- The aliases that a module declares, in source order. -/
def aliases (M : Module) : List String := (trailer M).filterMap Item.aliasString

/-- The module descriptors that a unit defines. -/
def descriptors (M : Module) (cfg : Config) (env : BuildEnv) : List ThisModule :=
  (items M cfg env).filterMap Item.descriptor

/-! ## Alias grammars -/

/-- Whether a character is a hexadecimal digit, of either case. -/
def isHexDigit (c : Char) : Bool :=
  (48 ≤ c.toNat && c.toNat ≤ 57) || (65 ≤ c.toNat && c.toNat ≤ 70) ||
    (97 ≤ c.toNat && c.toNat ≤ 102)

/-- Whether a character is one of `0`-`9`, `A`-`F`. -/
def isUpperHexDigit (c : Char) : Bool :=
  (48 ≤ c.toNat && c.toNat ≤ 57) || (65 ≤ c.toNat && c.toNat ≤ 70)

/-- The rest of the input after the text `s`, when the input starts with `s`. -/
def eat (s : String) (cs : List Char) : Option (List Char) :=
  if s.data.isPrefixOf cs then some (cs.drop s.data.length) else none

/-- The rest of the input after exactly `n` hexadecimal digits. -/
def eatHex : Nat → List Char → Option (List Char)
  | 0, cs => some cs
  | _ + 1, [] => none
  | n + 1, c :: cs => if isHexDigit c then eatHex n cs else none

/-- The rest of the input after a field that is the single character `*` or
exactly `n` hexadecimal digits. -/
def eatField (n : Nat) : List Char → Option (List Char)
  | [] => eatHex n []
  | c :: cs => if c = '*' then some cs else eatHex n (c :: cs)

/-- The rest of a USB alias after `usb:v` F1 `p` F2 `d` F3 `dc` F4 `dsc` F5 `dp`
F6 `ic` F7 `isc` F8 `ip` F9 `in`, with F1 and F2 four hexadecimal digits, F3 four
hexadecimal digits or `*`, and F4 to F9 two hexadecimal digits or `*`. -/
def usbUpToIn (a : String) : Option (List Char) :=
  eat "usb:v" a.data >>= eatHex 4 >>= eat "p" >>= eatHex 4 >>= eat "d" >>= eatField 4 >>=
    eat "dc" >>= eatField 2 >>= eat "dsc" >>= eatField 2 >>= eat "dp" >>= eatField 2 >>=
    eat "ic" >>= eatField 2 >>= eat "isc" >>= eatField 2 >>= eat "ip" >>= eatField 2 >>=
    eat "in"

/-- The USB alias grammar as the specification words it (section 4.7): after
`in` comes the last field, two hexadecimal digits or `*`, and nothing else. -/
def usbAliasSpec (a : String) : Bool :=
  match usbUpToIn a >>= eatField 2 with
  | some [] => true
  | _ => false

/-- The USB alias grammar with the last field as the units have it: after `in`
comes `*`, or two hexadecimal digits followed by `*`. -/
def usbAliasTrailingStar (a : String) : Bool :=
  match usbUpToIn a with
  | some [c] => c = '*'
  | some [h1, h2, c] => isHexDigit h1 && isHexDigit h2 && c = '*'
  | _ => false

/-- A field of an alias: a literal value or the wildcard. -/
inductive AliasField where
  | literal (v : Nat)
  | wildcard
  deriving DecidableEq, Repr

/-- The uppercase hexadecimal digit of a value below 16. -/
def hexDigitChar (d : Nat) : Char :=
  if d < 10 then Char.ofNat (48 + d) else Char.ofNat (55 + d)

/-- The eight uppercase hexadecimal digits of a 32-bit value. -/
def hex8 (v : Nat) : String :=
  ⟨[hexDigitChar (v / 268435456 % 16), hexDigitChar (v / 16777216 % 16),
    hexDigitChar (v / 1048576 % 16), hexDigitChar (v / 65536 % 16),
    hexDigitChar (v / 4096 % 16), hexDigitChar (v / 256 % 16),
    hexDigitChar (v / 16 % 16), hexDigitChar (v % 16)]⟩

/-- A field as the PCI grammar of the specification writes it (section 4.7):
"either an 8-hex-digit uppercase literal or the single character `*`". -/
def AliasField.render : AliasField → String
  | .literal v => hex8 v
  | .wildcard => "*"

/-- The PCI alias as the specification words it (section 4.7):
`pci:v<VENDOR>d<DEVICE>sv<SUBVENDOR>sd<SUBDEVICE>bc<CLASS>sc<SUBCLASS>i<PROGIF>`. -/
def pciAliasSpec (vendor device subvendor subdevice cls subclass progif : AliasField) :
    String :=
  "pci:v" ++ vendor.render ++ "d" ++ device.render ++ "sv" ++ subvendor.render ++
    "sd" ++ subdevice.render ++ "bc" ++ cls.render ++ "sc" ++ subclass.render ++
    "i" ++ progif.render

/-! ## Info records of the trailers -/

/-- The info records of the trailer of a module. -/
def trailerInfo (M : Module) : List InfoRecord := (trailer M).filterMap Item.infoRecord

/-- The keys of the info records of a unit, in source order, for a setting of
the retpoline selector. -/
def infoTags (M : Module) (retpoline : Bool) : List String :=
  ["vermagic", "name"] ++
    ((if retpoline then ["retpoline"] else []) ++ (trailerInfo M).map (fun r => r.tag))

/-- The selectors used in the witnesses: all three set. -/
def allSet : Config := ⟨true, true, true⟩

/-- The build environment used in the witnesses. -/
def sampleEnv : BuildEnv := ⟨"6.12.0 SMP preempt mod_unload ", "cec_gpib", "arch"⟩

/-! ## Checks across the modules -/

/-- The import records of all seven modules. -/
def allRecords : List ImportRecord :=
  records .cec_gpib ++ (records .gpib_bitbang ++ (records .hp82335 ++ (records .nec7210 ++
    (records .ni_usb_gpib ++ (records .gpib_common ++ records .tms9914)))))

/-- The CRC field of the first record of a list whose name has the number `k`. -/
def firstCrc (k : Nat) : List ImportRecord → Option Nat
  | [] => none
  | r :: rs => if Nat.beq (bytesKey r.name 0) k then r.crc else firstCrc k rs

/-- Whether every record of a list has a CRC, different from 0, that is the CRC
of the first record of the list with the same name number. -/
def crcsFunctional (rs : List ImportRecord) : Bool :=
  rs.all fun r =>
    match r.crc with
    | some c => !Nat.beq c 0 && (firstCrc (bytesKey r.name 0) rs == some c)
    | none => false

/-- The `_printk` record of `nec7210`, at offset 160. -/
def printkRecordNec7210 : ImportRecord :=
  ⟨160, 0x10, cbytes "\x10\x00\x00\x00\x7e\x3a\x2c\x12" ++ cbytes "_printk\x00"⟩

/-! ## Module names and dependencies -/

/-- The name of a module: the name of its unit's file without `.mod.c`. -/
def modName : Module → String
  | .cec_gpib => "cec_gpib"
  | .gpib_bitbang => "gpib_bitbang"
  | .hp82335 => "hp82335"
  | .nec7210 => "nec7210"
  | .ni_usb_gpib => "ni_usb_gpib"
  | .gpib_common => "gpib_common"
  | .tms9914 => "tms9914"

/-- The value of the `depends` record of a module, when its trailer has one. -/
def dependsValue (M : Module) : Option String :=
  ((trailerInfo M).find? (fun r => r.tag = "depends")).map (fun r => r.info)

/-- The pieces of a character sequence between its commas. -/
def splitAtCommas : List Char → List (List Char)
  | [] => [[]]
  | c :: cs =>
    if c = ',' then [] :: splitAtCommas cs
    else
      match splitAtCommas cs with
      | [] => [[c]]
      | p :: ps => (c :: p) :: ps

/-- The names that the depends value of a module lists: none for the empty
value, otherwise the pieces between its commas. -/
def dependsNames (M : Module) : List String :=
  match dependsValue M with
  | none => []
  | some v => if v = "" then [] else (splitAtCommas v.data).map String.mk

/-- The relation "`M` lists `P` in its depends value". -/
def dependsOn (M P : Module) : Prop := modName P ∈ dependsNames M

/-- A height of the modules in the dependency graph, used to show that the
graph has no cycle. -/
def rank : Module → Nat
  | .gpib_common => 0
  | .nec7210 => 1
  | .tms9914 => 1
  | .gpib_bitbang => 1
  | .ni_usb_gpib => 1
  | .cec_gpib => 2
  | .hp82335 => 2

/-- Whether some entry of `ks` exports a symbol that a record of `rs` names. -/
def sharesName (rs : List ImportRecord) (ks : List KsymtabEntry) : Bool :=
  ks.any fun k => rs.any fun r => beqBytes r.name (cbytes k.name)

/-- Whether some entry of `ks` has the name number of a record of `rs`. -/
def sharesKey (rs : List ImportRecord) (ks : List KsymtabEntry) : Bool :=
  ks.any fun k => rs.any fun r => Nat.beq (bytesKey r.name 0) (bytesKey (cbytes k.name) 0)

/-- The check of one pair of modules: when `M` lists `P`, `P` is another module
and exports a symbol that `M` imports; when `M` does not list `P`, no export of
`P` has the name number of an import of `M`. -/
def dependsOk (M P : Module) : Bool :=
  if modName P ∈ dependsNames M then (P != M) && sharesName (records M) (ksymtab P)
  else !sharesKey (records M) (ksymtab P)

/-- Whether no export of `P` has the name number of an export of `Q`. -/
def exportKeysDisjoint (P Q : Module) : Bool :=
  (ksymtab P).all fun k => (ksymtab Q).all fun q =>
    !Nat.beq (bytesKey (cbytes k.name) 0) (bytesKey (cbytes q.name) 0)

/-- The longest record: `__ubsan_handle_shift_out_of_bounds` of `tms9914`, at
offset 336, of length 0x2c. -/
def ubsanShiftRecord : ImportRecord :=
  ⟨336, 0x2c, cbytes "\x2c\x00\x00\x00\x61\xe5\x48\xa6" ++
    cbytes "__ubsan_handle_shift_out_of_bounds\x00\x00"⟩

/-! ## General lemmas -/

/-- The equality test `beqBytes` only accepts equal sequences. -/
theorem beqBytes_eq : ∀ (a b : List Nat), beqBytes a b = true → a = b := by
  intro a
  induction a with
  | nil =>
    intro b h
    cases b with
    | nil => rfl
    | cons y ys => simp [beqBytes] at h
  | cons x xs ih =>
    intro b h
    cases b with
    | nil => simp [beqBytes] at h
    | cons y ys =>
      simp only [beqBytes, Bool.and_eq_true] at h
      rw [Nat.eq_of_beq_eq_true h.1, ih ys h.2]

/-- What the check `roundTrips` establishes. -/
theorem roundTrips_eq (arr : List Nat) (h : roundTrips arr = true) :
    (parsePairs arr).map (fun ps => emitAligned 4 ps ++ [0]) = some arr := by
  unfold roundTrips at h
  cases hp : parsePairs arr with
  | none => simp [hp] at h
  | some ps =>
    simp only [hp] at h
    simp [beqBytes_eq _ _ h]

/-- The entries of every module are among the entries of the stack. -/
theorem mem_stackCrcs (P : Module) (e : CrcEntry) (he : e ∈ symbolCrc P) : e ∈ stackCrcs := by
  unfold stackCrcs
  cases P <;> simp [he]

/-- A byte sequence whose part before the first NUL is non-empty and whose part
from the first NUL on is non-empty and all NUL is a name followed by NUL bytes. -/
theorem region_shape (l : List Nat)
    (h1 : l.takeWhile (fun b => b != 0) ≠ [])
    (h2 : l.dropWhile (fun b => b != 0) ≠ [])
    (h3 : ∀ b ∈ l.dropWhile (fun b => b != 0), b = 0) :
    ∃ (name : List Nat) (k : Nat), name ≠ [] ∧ (∀ b ∈ name, b ≠ 0) ∧ 1 ≤ k ∧
      l = name ++ List.replicate k 0 ∧ l.takeWhile (fun b => b != 0) = name := by
  refine ⟨l.takeWhile (fun b => b != 0), (l.dropWhile (fun b => b != 0)).length, h1, ?_, ?_, ?_, rfl⟩
  · intro b hb
    have := List.mem_takeWhile_imp hb
    simpa using this
  · cases h : l.dropWhile (fun b => b != 0) with
    | nil => exact absurd h h2
    | cons x xs => simp
  · have h4 : l.dropWhile (fun b => b != 0)
        = List.replicate (l.dropWhile (fun b => b != 0)).length 0 :=
      List.eq_replicate_of_mem h3
    rw [← h4, List.takeWhile_append_dropWhile]
/-- A successful `splitExact n` cuts the list after exactly `n` elements. -/
theorem splitExact_eq : ∀ (n : Nat) (l front back : List Nat),
    splitExact n l = some (front, back) → l = front ++ back ∧ front.length = n := by
  intro n
  induction n with
  | zero =>
    intro l front back h
    simp [splitExact] at h
    obtain ⟨h1, h2⟩ := h
    subst h1; subst h2
    simp
  | succ n ih =>
    intro l front back h
    cases l with
    | nil => simp [splitExact] at h
    | cons b l =>
      simp only [splitExact] at h
      cases hs : splitExact n l with
      | none => simp [hs] at h
      | some p =>
        obtain ⟨f, bk⟩ := p
        simp [hs] at h
        obtain ⟨h1, h2⟩ := h
        subst h1; subst h2
        obtain ⟨e1, e2⟩ := ih l f bk hs
        subst e1
        simp [e2]

/-- Soundness of the walk, for a walk that has reached offset `pre.length` of the
array `pre ++ rest`. -/
theorem walk_sound : ∀ (fuel : Nat) (pre rest : List Nat) (rs : List ImportRecord) (t : Nat),
    walk fuel pre.length rest = some (rs, t) →
      chained pre.length rs t = true ∧ pre.length ≤ t ∧
      (∀ r ∈ rs, r.len ≠ 0 ∧ le32 ((pre ++ rest).drop r.off) = some r.len ∧
        ((pre ++ rest).drop r.off).take r.len = r.bytes ∧ r.off + r.len ≤ t) ∧
      t + 8 ≤ (pre ++ rest).length ∧
      ((pre ++ rest).drop t).take 8 = [0, 0, 0, 0, 0, 0, 0, 0] := by
  intro fuel
  induction fuel with
  | zero => intro pre rest rs t h; simp [walk] at h
  | succ fuel ih =>
    intro pre rest rs t h
    simp only [walk] at h
    cases hl : le32 rest with
    | none => simp [hl] at h
    | some len =>
      simp only [hl] at h
      by_cases h0 : len = 0
      · simp only [h0, if_true] at h
        by_cases hz : rest.take 8 = [0, 0, 0, 0, 0, 0, 0, 0]
        · simp only [hz, if_true, Option.some.injEq, Prod.mk.injEq] at h
          obtain ⟨h1, h2⟩ := h
          subst h1; subst h2
          have hlen : 8 ≤ rest.length := by
            have := congrArg List.length hz
            simp at this
            omega
          refine ⟨by simp [chained], Nat.le_refl _, by simp, by simp; omega, ?_⟩
          simp [hz]
        · simp [hz] at h
      · simp only [h0, if_false] at h
        cases hs : splitExact len rest with
        | none => simp [hs] at h
        | some p =>
          obtain ⟨bytes, rest2⟩ := p
          simp only [hs] at h
          obtain ⟨e1, e2⟩ := splitExact_eq len rest bytes rest2 hs
          have hpre : (pre ++ bytes).length = pre.length + len := by simp [e2]
          cases hw : walk fuel (pre.length + len) rest2 with
          | none => simp [hw] at h
          | some q =>
            obtain ⟨rs2, t2⟩ := q
            simp only [hw, Option.some.injEq, Prod.mk.injEq] at h
            obtain ⟨h1, h2⟩ := h
            subst h1; subst h2
            rw [← hpre] at hw
            obtain ⟨c1, c2, c3, c4, c5⟩ := ih (pre ++ bytes) rest2 rs2 t2 hw
            have happ : pre ++ bytes ++ rest2 = pre ++ rest := by
              rw [e1, List.append_assoc]
            rw [happ] at c3 c4 c5
            rw [hpre] at c1 c2
            refine ⟨by simp [chained, c1], by omega, ?_, c4, c5⟩
            intro r hr
            rcases List.mem_cons.mp hr with hr | hr
            · subst hr
              refine ⟨h0, ?_, ?_, by simpa using c2⟩
              · simpa using hl
              · simp [e1, e2]
            · exact c3 r hr

/-- Soundness of the walk of a whole array. -/
theorem parse_sound (arr : List Nat) (rs : List ImportRecord) (t : Nat)
    (h : parseVersions arr = some (rs, t)) :
    chained 0 rs t = true ∧
      (∀ r ∈ rs, r.len ≠ 0 ∧ le32 (arr.drop r.off) = some r.len ∧
        (arr.drop r.off).take r.len = r.bytes ∧ r.off + r.len ≤ t) ∧
      t + 8 ≤ arr.length ∧ (arr.drop t).take 8 = [0, 0, 0, 0, 0, 0, 0, 0] := by
  have := walk_sound arr.length [] arr rs t (by simpa [parseVersions] using h)
  simpa using this

/-- In a list without two elements of the same `f`-value, the elements with the
`f`-value of a member are that member alone. -/
theorem filter_eq_singleton {α β : Type} [DecidableEq β] (f : α → β) :
    ∀ (l : List α) (a : α), a ∈ l → (l.map f).Nodup →
      l.filter (fun e => f e = f a) = [a] := by
  intro l
  induction l with
  | nil => intro a ha; simp at ha
  | cons x xs ih =>
    intro a ha hn
    rw [List.map_cons, List.nodup_cons] at hn
    obtain ⟨hx, hxs⟩ := hn
    rcases List.mem_cons.mp ha with rfl | ha
    · have : xs.filter (fun e => f e = f a) = [] := by
        rw [List.filter_eq_nil_iff]
        intro e he h
        exact hx (List.mem_map.mpr ⟨e, he, by simpa using h⟩)
      simp [List.filter_cons, this]
    · have hne : ¬ (f x = f a) := by
        intro h
        exact hx (List.mem_map.mpr ⟨a, ha, h.symm⟩)
      simp [List.filter_cons, hne, ih a ha hxs]

/-- Two entry lists that carry the same (name, qualifier) pairs in the same order,
with no name twice, are paired one to one. -/
theorem pairing_of_aligned (ks : List KsymtabEntry) (es : List CrcEntry)
    (hz : ks.map (fun k => (k.name, k.sec)) = es.map (fun e => (e.sym, e.sec)))
    (hn : (es.map (fun e => e.sym)).Nodup) :
    (∀ k ∈ ks, (es.filter (fun e => e.sym = k.name)).map (fun e => e.sec) = [k.sec]) ∧
      (∀ e ∈ es, ∃ k ∈ ks, k.name = e.sym ∧ k.sec = e.sec) := by
  constructor
  · intro k hk
    have hmem : (k.name, k.sec) ∈ es.map (fun e => (e.sym, e.sec)) := by
      rw [← hz]
      exact List.mem_map.mpr ⟨k, hk, rfl⟩
    obtain ⟨e0, he0, heq⟩ := List.mem_map.mp hmem
    have h1 : e0.sym = k.name := congrArg Prod.fst heq
    have h2 : e0.sec = k.sec := congrArg Prod.snd heq
    have := filter_eq_singleton (fun e : CrcEntry => e.sym) es e0 he0 hn
    rw [← h1, this, ← h2]
    rfl
  · intro e he
    have hmem : (e.sym, e.sec) ∈ ks.map (fun k => (k.name, k.sec)) := by
      rw [hz]
      exact List.mem_map.mpr ⟨e, he, rfl⟩
    obtain ⟨k, hk, heq⟩ := List.mem_map.mp hmem
    exact ⟨k, hk, congrArg Prod.fst heq, congrArg Prod.snd heq⟩

/-! ## Facts established by evaluating the tables -/


set_option maxRecDepth 100000 in
set_option maxHeartbeats 40000000 in
/-- The import table of every module, evaluated once: the walk succeeds; every
record has a length that is a multiple of 4 and at least 12, consists of that
many bytes, has a non-empty name followed by NUL bytes only, and is the stated
byte string when its name is `_printk`; the CRCs agree with the `SYMBOL_CRC`
entries of the stack; the numbers of the names are pairwise different; and the
array is the emission of its pairs. -/
theorem table_facts (M : Module) :
    (parseVersions (versions M)).isSome = true ∧
    (∀ r ∈ records M,
      r.len % 4 = 0 ∧ 12 ≤ r.len ∧ r.bytes.length = r.len ∧
      r.nameRegion.takeWhile (fun b => b != 0) ≠ [] ∧
      r.nameRegion.dropWhile (fun b => b != 0) ≠ [] ∧
      (∀ b ∈ r.nameRegion.dropWhile (fun b => b != 0), b = 0) ∧
      (r.name = cbytes "_printk" →
        r.bytes = [0x10, 0x00, 0x00, 0x00, 0x7e, 0x3a, 0x2c, 0x12,
                   0x5f, 0x70, 0x72, 0x69, 0x6e, 0x74, 0x6b, 0x00] ∧
        r.len = 0x10 ∧ r.crc = some 0x122c3a7e)) ∧
    crcsAgree (records M) stackCrcs = true ∧
    ((records M).map (fun r => bytesKey r.name 0)).Nodup ∧
    roundTrips (versions M) = true := by
  cases M <;> decide!

set_option maxRecDepth 100000 in
set_option maxHeartbeats 40000000 in
/-- The records named above are records of their modules. -/
theorem named_records_mem :
    freeIrqRecord ∈ records .cec_gpib ∧ nec7210ReadRecord ∈ records .cec_gpib ∧
      printkRecord ∈ records .cec_gpib ∧ upRecord ∈ records .ni_usb_gpib := by
  decide!

set_option maxRecDepth 100000 in
set_option maxHeartbeats 40000000 in
/-- The export tables of every module, evaluated: the `KSYMTAB_FUNC` and
`SYMBOL_CRC` lines carry the same (name, qualifier) pairs in the same order, and
the numbers of the `SYMBOL_CRC` names are pairwise different. -/
theorem export_facts (M : Module) :
    (ksymtab M).map (fun k => (k.name, k.sec)) = (symbolCrc M).map (fun e => (e.sym, e.sec)) ∧
      ((symbolCrc M).map (fun e => bytesKey (cbytes e.sym) 0)).Nodup := by
  cases M <;> decide!

/-- No symbol occurs in two `SYMBOL_CRC` entries of a module. -/
theorem symbolCrc_names_nodup (M : Module) : ((symbolCrc M).map (fun e => e.sym)).Nodup := by
  have h : (((symbolCrc M).map (fun e => e.sym)).map (fun s => bytesKey (cbytes s) 0)).Nodup := by
    rw [List.map_map]
    exact (export_facts M).2
  exact List.Nodup.of_map _ h

/-- The `KSYMTAB_FUNC` names of a module are its `SYMBOL_CRC` names, in order. -/
theorem ksymtab_names_eq (M : Module) :
    (ksymtab M).map (fun k => k.name) = (symbolCrc M).map (fun e => e.sym) := by
  have h := congrArg (List.map Prod.fst) (export_facts M).1
  simpa [List.map_map, Function.comp_def] using h

/-! ## Theorems -/

/-- C1 (cross-module CRC agreement).  For every module `M`, every import record
`r` of its `____versions` array, every module `P` and every `SYMBOL_CRC` entry
`e` of `P` whose symbol is the name of `r`: the little-endian 32-bit value in
bytes 4..7 of `r` is the CRC of `e`. -/
theorem crc_agreement (M P : Module) (r : ImportRecord) (e : CrcEntry)
    (hr : r ∈ records M) (he : e ∈ symbolCrc P) (hname : r.name = cbytes e.sym) :
    r.crc = some e.crc := by
  have key : crcsAgree (records M) stackCrcs = true := (table_facts M).2.2.1
  have h1 := List.all_eq_true.mp (List.all_eq_true.mp key r hr) e (mem_stackCrcs P e he)
  rw [hname] at h1
  simpa using h1

set_option maxRecDepth 100000 in
/-- Witness for C1: the record `nec7210_read` of `cec_gpib` and the entry
`SYMBOL_CRC(nec7210_read, 0x39fa26f4, "")` of `nec7210`. -/
theorem crc_agreement_witness :
    nec7210ReadRecord ∈ records .cec_gpib ∧
      (⟨"nec7210_read", 0x39fa26f4, ""⟩ : CrcEntry) ∈ symbolCrc .nec7210 ∧
      nec7210ReadRecord.name = cbytes "nec7210_read" ∧
      nec7210ReadRecord.crc = some 0x39fa26f4 :=
  ⟨named_records_mem.2.1, by decide!, by decide!,
    crc_agreement .cec_gpib .nec7210 nec7210ReadRecord ⟨"nec7210_read", 0x39fa26f4, ""⟩
      named_records_mem.2.1 (by decide!) (by decide!)⟩

/-- C2 (blob framing).  For each of the seven `____versions` arrays the walk from
offset 0 succeeds: it returns records `rs` and a terminator offset `t` such that
the records lie back to back from offset 0 to `t`; every record has a non-zero
length, which is the little-endian value of the four array bytes at its offset,
consists of the array bytes from its offset on, and ends at or before `t`; and
the eight bytes at offset `t` lie inside the array and are all zero. -/
theorem versions_framing (M : Module) :
    ∃ rs t, parseVersions (versions M) = some (rs, t) ∧
      chained 0 rs t = true ∧
      (∀ r ∈ rs, r.len ≠ 0 ∧ le32 ((versions M).drop r.off) = some r.len ∧
        ((versions M).drop r.off).take r.len = r.bytes ∧ r.off + r.len ≤ t) ∧
      t + 8 ≤ (versions M).length ∧
      ((versions M).drop t).take 8 = [0, 0, 0, 0, 0, 0, 0, 0] := by
  have h := (table_facts M).1
  cases hp : parseVersions (versions M) with
  | none => simp [hp] at h
  | some p =>
    obtain ⟨rs, t⟩ := p
    exact ⟨rs, t, rfl, parse_sound (versions M) rs t hp⟩

set_option maxRecDepth 100000 in
/-- C3, as the specification states it, fails: the record `free_irq` of
`cec_gpib` has the length prefix 0x14 = 20, which is not a multiple of 8. -/
theorem record_len_multiple_of_8_fails :
    freeIrqRecord ∈ records .cec_gpib ∧ freeIrqRecord.len = 20 ∧
      ¬ (freeIrqRecord.len % 8 = 0) :=
  ⟨named_records_mem.1, by decide, by decide⟩

/-- C3, amended.  For every module and every import record of its
`____versions` array, the length stored in the length prefix is a multiple of 4:
names are NUL-padded to a 4-byte multiple. -/
theorem record_len_multiple_of_4 (M : Module) (r : ImportRecord) (hr : r ∈ records M) :
    r.len % 4 = 0 :=
  ((table_facts M).2.1 r hr).1

/-- Witness for C3 amended: the record `free_irq` of `cec_gpib`. -/
theorem record_len_multiple_of_4_witness :
    freeIrqRecord ∈ records .cec_gpib ∧ freeIrqRecord.len % 4 = 0 :=
  ⟨named_records_mem.1, record_len_multiple_of_4 .cec_gpib freeIrqRecord named_records_mem.1⟩

/-- C4, as the specification states it, fails: the record `up` of `ni_usb_gpib`
has the length prefix 0x0c = 12, which is below 16. -/
theorem record_len_at_least_16_fails :
    upRecord ∈ records .ni_usb_gpib ∧ upRecord.len = 12 ∧ ¬ (16 ≤ upRecord.len) :=
  ⟨named_records_mem.2.2.2, by decide, by decide⟩

/-- C4, amended.  For every module and every import record of its
`____versions` array (the terminator is not a record), the length stored in the
length prefix is at least 12. -/
theorem record_len_at_least_12 (M : Module) (r : ImportRecord) (hr : r ∈ records M) :
    12 ≤ r.len :=
  ((table_facts M).2.1 r hr).2.1

/-- Witness for C4 amended: the record `up` of `ni_usb_gpib`, which attains the
bound. -/
theorem record_len_at_least_12_witness :
    upRecord ∈ records .ni_usb_gpib ∧ 12 ≤ upRecord.len :=
  ⟨named_records_mem.2.2.2,
    record_len_at_least_12 .ni_usb_gpib upRecord named_records_mem.2.2.2⟩

/-- C5 (name region).  For every module and every import record `r` of declared
length `r.len`, the record consists of exactly `r.len` bytes and its bytes
8..`r.len`-1 are a non-empty run `name` of non-NUL bytes followed by `k ≥ 1` NUL
bytes and nothing else; `name` is the name of the record. -/
theorem name_region_shape (M : Module) (r : ImportRecord) (hr : r ∈ records M) :
    r.bytes.length = r.len ∧
    ∃ (name : List Nat) (k : Nat), name ≠ [] ∧ (∀ b ∈ name, b ≠ 0) ∧ 1 ≤ k ∧
      r.nameRegion = name ++ List.replicate k 0 ∧ r.name = name := by
  obtain ⟨_, _, h0, h1, h2, h3, _⟩ := (table_facts M).2.1 r hr
  exact ⟨h0, region_shape r.nameRegion h1 h2 h3⟩

/-- Witness for C5: the record `free_irq` of `cec_gpib`, whose name is followed
by four NUL bytes. -/
theorem name_region_shape_witness :
    freeIrqRecord ∈ records .cec_gpib ∧
    (freeIrqRecord.bytes.length = freeIrqRecord.len ∧
    ∃ (name : List Nat) (k : Nat), name ≠ [] ∧ (∀ b ∈ name, b ≠ 0) ∧ 1 ≤ k ∧
      freeIrqRecord.nameRegion = name ++ List.replicate k 0 ∧ freeIrqRecord.name = name) :=
  ⟨named_records_mem.1, name_region_shape .cec_gpib freeIrqRecord named_records_mem.1⟩

/-- C6, as the specification states it, fails: the record of `cec_gpib` named
`_printk` is not the byte string that starts with the length prefix 0x14; its
length prefix is 0x10. -/
theorem printk_record_prefix_0x14_fails :
    printkRecord ∈ records .cec_gpib ∧ printkRecord.name = cbytes "_printk" ∧
      printkRecord.bytes ≠
        [0x14, 0x00, 0x00, 0x00, 0x7e, 0x3a, 0x2c, 0x12,
         0x5f, 0x70, 0x72, 0x69, 0x6e, 0x74, 0x6b, 0x00] :=
  ⟨named_records_mem.2.2.1, by decide, by decide⟩

/-- C6, amended.  In every module, the import record named `_printk` is exactly
the 16 bytes 10 00 00 00 7e 3a 2c 12 5f 70 72 69 6e 74 6b 00: length prefix
0x10, CRC 0x122c3a7e little-endian, then the name `_printk` and its NUL. -/
theorem printk_record_bytes (M : Module) (r : ImportRecord) (hr : r ∈ records M)
    (hname : r.name = cbytes "_printk") :
    r.bytes =
        [0x10, 0x00, 0x00, 0x00, 0x7e, 0x3a, 0x2c, 0x12,
         0x5f, 0x70, 0x72, 0x69, 0x6e, 0x74, 0x6b, 0x00] ∧
      r.len = 0x10 ∧ r.crc = some 0x122c3a7e :=
  ((table_facts M).2.1 r hr).2.2.2.2.2.2 hname

/-- Witness for C6 amended: the `_printk` record of `cec_gpib`. -/
theorem printk_record_bytes_witness :
    printkRecord ∈ records .cec_gpib ∧ printkRecord.name = cbytes "_printk" ∧
      (printkRecord.bytes =
        [0x10, 0x00, 0x00, 0x00, 0x7e, 0x3a, 0x2c, 0x12,
         0x5f, 0x70, 0x72, 0x69, 0x6e, 0x74, 0x6b, 0x00] ∧
      printkRecord.len = 0x10 ∧ printkRecord.crc = some 0x122c3a7e) :=
  ⟨named_records_mem.2.2.1, by decide,
    printk_record_bytes .cec_gpib printkRecord named_records_mem.2.2.1 (by decide)⟩

set_option maxRecDepth 100000 in
set_option maxHeartbeats 4000000 in
/-- C7, as the specification states it, fails on `cec_gpib`: the array parses to
a sequence of pairs, but emitting those pairs with names padded to a multiple of
8 and the 8-byte terminator does not give back the array.  Neither change of the
amended claim can be left out: with padding to a multiple of 4 but without the
terminating NUL of the string literal the result still differs from the array,
and so does padding to a multiple of 8 with that NUL appended. -/
theorem versions_roundtrip_spec_layout_fails :
    (parsePairs (versions .cec_gpib)).isSome = true ∧
      (parsePairs (versions .cec_gpib)).map emitSpec ≠ some (versions .cec_gpib) ∧
      (parsePairs (versions .cec_gpib)).map (emitAligned 4) ≠ some (versions .cec_gpib) ∧
      (parsePairs (versions .cec_gpib)).map (fun ps => emitSpec ps ++ [0])
        ≠ some (versions .cec_gpib) := by
  decide!

/-- C7, amended.  For each of the seven modules, parsing the whole `____versions`
array into its sequence of (name, crc) pairs succeeds, and emitting those pairs
again as little-endian total length, little-endian CRC and NUL-terminated name
padded with NUL to a total length that is a multiple of 4, followed by the
8-byte zero terminator and the terminating NUL that the C string literal adds to
the array, yields a byte sequence identical to the original array. -/
theorem versions_roundtrip (M : Module) :
    (parsePairs (versions M)).map (fun ps => emitAligned 4 ps ++ [0]) = some (versions M) :=
  roundTrips_eq (versions M) (table_facts M).2.2.2.2

set_option maxRecDepth 100000 in
/-- C8 (export pairing).  In each module, every `KSYMTAB_FUNC` entry has exactly
one `SYMBOL_CRC` entry with its name, and that entry carries the same qualifier;
every `SYMBOL_CRC` entry has a `KSYMTAB_FUNC` entry with the same name and
qualifier.  `tms9914_board_reset` carries `_gpl` in both entries with CRC
0x9fef51c3 and `gpib_register_driver` carries the empty qualifier in both with
CRC 0x442d878f. -/
theorem export_pairing :
    (∀ M : Module,
      (∀ k ∈ ksymtab M,
        ((symbolCrc M).filter (fun e => e.sym = k.name)).map (fun e => e.sec) = [k.sec]) ∧
      (∀ e ∈ symbolCrc M, ∃ k ∈ ksymtab M, k.name = e.sym ∧ k.sec = e.sec)) ∧
    (⟨"tms9914_board_reset", "_gpl", ""⟩ : KsymtabEntry) ∈ ksymtab .tms9914 ∧
    (⟨"tms9914_board_reset", 0x9fef51c3, "_gpl"⟩ : CrcEntry) ∈ symbolCrc .tms9914 ∧
    (⟨"gpib_register_driver", "", ""⟩ : KsymtabEntry) ∈ ksymtab .gpib_common ∧
    (⟨"gpib_register_driver", 0x442d878f, ""⟩ : CrcEntry) ∈ symbolCrc .gpib_common := by
  refine ⟨?_, by decide!⟩
  intro M
  exact pairing_of_aligned (ksymtab M) (symbolCrc M) (export_facts M).1
    (symbolCrc_names_nodup M)

/-- C9 (export uniqueness).  Within each module no symbol name occurs in more
than one `KSYMTAB_FUNC` entry and no symbol name occurs in more than one
`SYMBOL_CRC` entry. -/
theorem export_names_unique (M : Module) :
    ((ksymtab M).map (fun k => k.name)).Nodup ∧
      ((symbolCrc M).map (fun e => e.sym)).Nodup := by
  refine ⟨?_, symbolCrc_names_nodup M⟩
  rw [ksymtab_names_eq]
  exact symbolCrc_names_nodup M

/-- C10 (import uniqueness).  For each of the seven modules, no two records of
its `____versions` array carry the same symbol name. -/
theorem import_names_unique (M : Module) :
    ((records M).map ImportRecord.name).Nodup := by
  have h : (((records M).map ImportRecord.name).map (fun n => bytesKey n 0)).Nodup := by
    rw [List.map_map]
    exact (table_facts M).2.2.2.1
  exact List.Nodup.of_map _ h

/-! ## Lemmas on info records and descriptors -/

/-- The info records of a unit: `vermagic`, `name`, `retpoline` when selected,
then the records of the trailer. -/
theorem moduleInfo_eq (M : Module) (cfg : Config) (env : BuildEnv) :
    moduleInfo M cfg env =
      [⟨"vermagic", env.VERMAGIC_STRING⟩, ⟨"name", env.KBUILD_MODNAME⟩] ++
        ((if cfg.CONFIG_MITIGATION_RETPOLINE then [⟨"retpoline", "Y"⟩] else []) ++
          trailerInfo M) := by
  rcases cfg with ⟨a, b, c⟩
  cases a <;> cases c <;> rfl

/-- The keys of the info records of a unit. -/
theorem moduleInfo_tags (M : Module) (cfg : Config) (env : BuildEnv) :
    (moduleInfo M cfg env).map (fun r => r.tag) =
      infoTags M cfg.CONFIG_MITIGATION_RETPOLINE := by
  rw [moduleInfo_eq]
  rcases cfg with ⟨a, b, c⟩
  cases c <;> rfl

/-- The trailers, evaluated: no record of a trailer has one of the keys of the
header, and every `srcversion` value has 23 characters, all of them uppercase
hexadecimal digits. -/
theorem trailer_facts (M : Module) :
    ∀ r ∈ trailerInfo M,
      r.tag ≠ "vermagic" ∧ r.tag ≠ "name" ∧ r.tag ≠ "retpoline" ∧
      (r.tag = "srcversion" →
        r.info.length = 23 ∧ r.info.data.all isUpperHexDigit = true) := by
  cases M <;> decide

/-- The keys, evaluated: the four required keys occur once, `retpoline` as often
as it is selected, and the keys other than `alias` are pairwise different. -/
theorem infoTags_facts (M : Module) (b : Bool) :
    (infoTags M b).count "vermagic" = 1 ∧ (infoTags M b).count "name" = 1 ∧
      (infoTags M b).count "depends" = 1 ∧ (infoTags M b).count "srcversion" = 1 ∧
      (infoTags M b).count "retpoline" = (if b then 1 else 0) ∧
      ((infoTags M b).filter (fun k => k ≠ "alias")).Nodup := by
  cases M <;> cases b <;> decide

/-- In a list whose elements other than `a` are pairwise different, no element
other than `a` occurs twice. -/
theorem count_le_one_of_nodup_filter (l : List String) (a : String)
    (h : (l.filter (fun k => k ≠ a)).Nodup) (k : String) (hk : k ≠ a) :
    l.count k ≤ 1 := by
  have h1 := List.nodup_iff_count_le_one.mp h k
  rwa [List.count_filter (by simpa using hk)] at h1

/-- The only descriptor of a unit is `__this_module`. -/
theorem descriptors_eq (M : Module) (cfg : Config) (env : BuildEnv) :
    descriptors M cfg env = [__this_module cfg env] := by
  rcases cfg with ⟨a, b, c⟩
  cases M <;> cases a <;> cases c <;> rfl

/-! ## Facts across the modules, established by evaluation -/

/-- The records of every module are among the records of the stack. -/
theorem mem_allRecords (M : Module) (r : ImportRecord) (h : r ∈ records M) :
    r ∈ allRecords := by
  unfold allRecords
  cases M <;> simp [h]

set_option maxRecDepth 100000 in
set_option maxHeartbeats 40000000 in
/-- The import tables of the seven modules, evaluated together. -/
theorem stack_crcs_functional : crcsFunctional allRecords = true := by
  decide!

/-- What the check `crcsFunctional` establishes for a record of the stack. -/
theorem crc_of_mem (r : ImportRecord) (h : r ∈ allRecords) :
    ∃ c, r.crc = some c ∧ c ≠ 0 ∧ firstCrc (bytesKey r.name 0) allRecords = some c := by
  have h1 := List.all_eq_true.mp stack_crcs_functional r h
  cases hc : r.crc with
  | none => simp [hc] at h1
  | some c =>
    simp only [hc, Bool.and_eq_true, Bool.not_eq_true', beq_iff_eq] at h1
    refine ⟨c, rfl, ?_, h1.2⟩
    intro h0
    rw [h0] at h1
    exact absurd h1.1 (by decide)

set_option maxRecDepth 100000 in
/-- The `_printk` record of `nec7210` is a record of `nec7210`. -/
theorem printkRecordNec7210_mem : printkRecordNec7210 ∈ records .nec7210 := by
  decide!

set_option maxRecDepth 100000 in
set_option maxHeartbeats 40000000 in
/-- The export entries, evaluated: every qualifier is empty or `_gpl`, and no
`SYMBOL_CRC` entry has the CRC 0. -/
theorem export_entry_facts (M : Module) :
    (∀ k ∈ ksymtab M, k.sec = "" ∨ k.sec = "_gpl") ∧
      (∀ e ∈ symbolCrc M, (e.sec = "" ∨ e.sec = "_gpl") ∧ e.crc ≠ 0) := by
  cases M <;> decide!

/-! ## Theorems on aliases, info records and descriptors -/

/-- C11, as the specification states it, fails: the third alias of
`ni_usb_gpib` ends in `in00*`, so its last field is `00*`, which is neither two
hexadecimal digits nor the single character `*`. -/
theorem usb_alias_last_field_fails :
    "usb:v3923p7618d*dc*dsc*dp*ic*isc*ip*in00*" ∈ aliases .ni_usb_gpib ∧
      usbUpToIn "usb:v3923p7618d*dc*dsc*dp*ic*isc*ip*in00*" = some ['0', '0', '*'] ∧
      usbAliasSpec "usb:v3923p7618d*dc*dsc*dp*ic*isc*ip*in00*" = false := by
  decide

/-- C11, amended.  Every USB alias declared by `ni_usb_gpib` is `usb:v` F1 `p`
F2 `d` F3 `dc` F4 `dsc` F5 `dp` F6 `ic` F7 `isc` F8 `ip` F9 `in` F10 where F1 and
F2 are exactly 4 hexadecimal digits, F3 is 4 hexadecimal digits or `*`, each of
F4 to F9 is exactly 2 hexadecimal digits or `*`, and F10 is `*` or exactly 2
hexadecimal digits followed by `*`. -/
theorem usb_alias_grammar (a : String) (ha : a ∈ aliases .ni_usb_gpib) :
    usbAliasTrailingStar a = true := by
  have key : ∀ a ∈ aliases .ni_usb_gpib, usbAliasTrailingStar a = true := by decide
  exact key a ha

/-- Witness for C11 amended: the alias with the interface number 00. -/
theorem usb_alias_grammar_witness :
    "usb:v3923p7618d*dc*dsc*dp*ic*isc*ip*in00*" ∈ aliases .ni_usb_gpib ∧
      usbAliasTrailingStar "usb:v3923p7618d*dc*dsc*dp*ic*isc*ip*in00*" = true :=
  ⟨by decide, usb_alias_grammar "usb:v3923p7618d*dc*dsc*dp*ic*isc*ip*in00*" (by decide)⟩

/-- C12, as the specification states it, fails: `ni_usb_gpib` declares five
aliases and none of them begins with `usb:v00003923p0000702Ad*` or with
`usb:v00003923p0000709Bd*`. -/
theorem usb_alias_8_digit_ids_fails :
    aliases .ni_usb_gpib =
        ["usb:v3923p702Ad*dc*dsc*dp*ic*isc*ip*in*",
         "usb:v3923p709Bd*dc*dsc*dp*ic*isc*ip*in*",
         "usb:v3923p7618d*dc*dsc*dp*ic*isc*ip*in00*",
         "usb:v3923p725Cd*dc*dsc*dp*ic*isc*ip*in*",
         "usb:v3923p725Dd*dc*dsc*dp*ic*isc*ip*in*"] ∧
      (¬ ∃ a ∈ aliases .ni_usb_gpib, "usb:v00003923p0000702Ad*".data <+: a.data) ∧
      (¬ ∃ a ∈ aliases .ni_usb_gpib, "usb:v00003923p0000709Bd*".data <+: a.data) := by
  decide

/-- C12, amended.  In `ni_usb_gpib` the aliases for vendor 0x3923 with products
0x702A and 0x709B are emitted with 4-hexadecimal-digit vendor and product
fields: one alias begins `usb:v3923p702Ad*` and another begins
`usb:v3923p709Bd*`. -/
theorem usb_alias_4_digit_ids :
    ∃ a ∈ aliases .ni_usb_gpib, ∃ b ∈ aliases .ni_usb_gpib, a ≠ b ∧
      "usb:v3923p702Ad*".data <+: a.data ∧ "usb:v3923p709Bd*".data <+: b.data := by
  decide

/-- C13 (PCI alias).  `cec_gpib` declares exactly one alias; it is the rendering
in the PCI grammar of vendor 0x12FC, device 0x5CEC, subvendor wildcard, subdevice
0x9050 and class, subclass and programming interface wildcard, with each literal
as 8 uppercase hexadecimal digits and each wildcard as `*`, namely
`pci:v000012FCd00005CECsv*sd00009050bc*sc*i*`. -/
theorem pci_alias_cec :
    aliases .cec_gpib =
        [pciAliasSpec (.literal 0x12FC) (.literal 0x5CEC) .wildcard (.literal 0x9050)
          .wildcard .wildcard .wildcard] ∧
      pciAliasSpec (.literal 0x12FC) (.literal 0x5CEC) .wildcard (.literal 0x9050)
          .wildcard .wildcard .wildcard = "pci:v000012FCd00005CECsv*sd00009050bc*sc*i*" ∧
      (aliases .cec_gpib).length = 1 := by
  decide

/-- C14, as the specification states it, fails: the `srcversion` record of
`cec_gpib` has the value `0AA193C0D140E10F77D61A4`, which has 23 characters, not
22. -/
theorem srcversion_22_chars_fails :
    (⟨"srcversion", "0AA193C0D140E10F77D61A4"⟩ : InfoRecord)
        ∈ moduleInfo .cec_gpib allSet sampleEnv ∧
      "0AA193C0D140E10F77D61A4".length = 23 ∧
      ¬ ("0AA193C0D140E10F77D61A4".length = 22) := by
  decide

/-- C14, amended.  For every one of the seven modules and every setting of the
selectors and build macros, the value of its `srcversion` info record is a string
of exactly 23 characters, each an uppercase hexadecimal digit (0-9, A-F). -/
theorem srcversion_23_chars (M : Module) (cfg : Config) (env : BuildEnv) (r : InfoRecord)
    (hr : r ∈ moduleInfo M cfg env) (ht : r.tag = "srcversion") :
    r.info.length = 23 ∧ ∀ c ∈ r.info.data, isUpperHexDigit c = true := by
  rw [moduleInfo_eq] at hr
  rcases List.mem_append.mp hr with h | h
  · simp only [List.mem_cons, List.mem_singleton, List.not_mem_nil, or_false] at h
    rcases h with rfl | rfl
    · exact absurd (show "vermagic" = "srcversion" from ht) (by decide)
    · exact absurd (show "name" = "srcversion" from ht) (by decide)
  · rcases List.mem_append.mp h with h | h
    · split at h
      · simp only [List.mem_singleton] at h
        subst h
        exact absurd (show "retpoline" = "srcversion" from ht) (by decide)
      · simp at h
    · have h2 := (trailer_facts M r h).2.2.2 ht
      exact ⟨h2.1, List.all_eq_true.mp h2.2⟩

/-- Witness for C14 amended: the `srcversion` record of `cec_gpib`. -/
theorem srcversion_23_chars_witness :
    (⟨"srcversion", "0AA193C0D140E10F77D61A4"⟩ : InfoRecord)
        ∈ moduleInfo .cec_gpib allSet sampleEnv ∧
      ("0AA193C0D140E10F77D61A4".length = 23 ∧
        ∀ c ∈ "0AA193C0D140E10F77D61A4".data, isUpperHexDigit c = true) :=
  ⟨by decide,
    srcversion_23_chars .cec_gpib allSet sampleEnv ⟨"srcversion", "0AA193C0D140E10F77D61A4"⟩
      (by decide) rfl⟩

/-- C15 (modinfo cardinality).  For every module and every setting of the
selectors and build macros, the keys of the emitted info records contain
`vermagic`, `name`, `depends` and `srcversion` exactly once each, `retpoline` at
most once, and no key other than `alias` more than once. -/
theorem modinfo_cardinality (M : Module) (cfg : Config) (env : BuildEnv) :
    ((moduleInfo M cfg env).map (fun r => r.tag)).count "vermagic" = 1 ∧
      ((moduleInfo M cfg env).map (fun r => r.tag)).count "name" = 1 ∧
      ((moduleInfo M cfg env).map (fun r => r.tag)).count "depends" = 1 ∧
      ((moduleInfo M cfg env).map (fun r => r.tag)).count "srcversion" = 1 ∧
      ((moduleInfo M cfg env).map (fun r => r.tag)).count "retpoline" ≤ 1 ∧
      ∀ k : String, k ≠ "alias" → ((moduleInfo M cfg env).map (fun r => r.tag)).count k ≤ 1 := by
  rw [moduleInfo_tags]
  obtain ⟨h1, h2, h3, h4, h5, h6⟩ := infoTags_facts M cfg.CONFIG_MITIGATION_RETPOLINE
  refine ⟨h1, h2, h3, h4, ?_, count_le_one_of_nodup_filter _ _ h6⟩
  rw [h5]
  split <;> omega

/-- C16 (teardown slot).  For every module and every setting of the selectors
and build macros, the unit defines one descriptor, `__this_module`; its `exit`
slot is `cleanup_module` if and only if `CONFIG_MODULE_UNLOAD` is set; when it is
not set the slot keeps its default and the descriptor does not refer to
`cleanup_module`; and the `name`, `init` and `arch` slots are the module name,
`init_module` and the architecture block under every setting of the selectors. -/
theorem teardown_slot (M : Module) (cfg : Config) (env : BuildEnv) :
    descriptors M cfg env = [__this_module cfg env] ∧
      ((__this_module cfg env).exit = some Sym.cleanup_module ↔
        cfg.CONFIG_MODULE_UNLOAD = true) ∧
      (cfg.CONFIG_MODULE_UNLOAD = false →
        (__this_module cfg env).exit = none ∧
        Sym.cleanup_module ∉ (__this_module cfg env).refs) ∧
      (∀ cfg2 : Config,
        (__this_module cfg2 env).name = (__this_module cfg env).name ∧
        (__this_module cfg2 env).init = (__this_module cfg env).init ∧
        (__this_module cfg2 env).arch = (__this_module cfg env).arch) ∧
      (__this_module cfg env).name = env.KBUILD_MODNAME ∧
      (__this_module cfg env).init = Sym.init_module ∧
      (__this_module cfg env).arch = env.MODULE_ARCH_INIT := by
  refine ⟨descriptors_eq M cfg env, ?_, ?_, fun _ => ⟨rfl, rfl, rfl⟩, rfl, rfl, rfl⟩
  · rcases cfg with ⟨a, b, c⟩
    cases b <;> simp [__this_module]
  · intro h
    rcases cfg with ⟨a, b, c⟩
    simp only at h
    subst h
    simp [__this_module, ThisModule.refs]

/-- C17 (retpoline record).  For every module and every setting of the selectors
and build macros, an info record with key `retpoline` is emitted if and only if
`CONFIG_MITIGATION_RETPOLINE` is set; its value is `Y`; and two settings of the
selectors that agree on `CONFIG_MITIGATION_RETPOLINE` give the same info records,
whatever their unload and ORC selectors are. -/
theorem retpoline_record (M : Module) (cfg : Config) (env : BuildEnv) :
    ((∃ r ∈ moduleInfo M cfg env, r.tag = "retpoline") ↔
        cfg.CONFIG_MITIGATION_RETPOLINE = true) ∧
      (∀ r ∈ moduleInfo M cfg env, r.tag = "retpoline" → r.info = "Y") ∧
      (∀ cfg2 : Config,
        cfg2.CONFIG_MITIGATION_RETPOLINE = cfg.CONFIG_MITIGATION_RETPOLINE →
        moduleInfo M cfg2 env = moduleInfo M cfg env) := by
  have hmem : ∀ r ∈ moduleInfo M cfg env, r.tag = "retpoline" →
      cfg.CONFIG_MITIGATION_RETPOLINE = true ∧ r.info = "Y" := by
    intro r hr ht
    rw [moduleInfo_eq] at hr
    rcases List.mem_append.mp hr with h | h
    · simp only [List.mem_cons, List.mem_singleton, List.not_mem_nil, or_false] at h
      rcases h with rfl | rfl
      · exact absurd (show "vermagic" = "retpoline" from ht) (by decide)
      · exact absurd (show "name" = "retpoline" from ht) (by decide)
    · rcases List.mem_append.mp h with h | h
      · split at h
        · rename_i hc
          simp only [List.mem_singleton] at h
          subst h
          exact ⟨hc, rfl⟩
        · simp at h
      · exact absurd ht (trailer_facts M r h).2.2.1
  refine ⟨⟨?_, ?_⟩, fun r hr ht => (hmem r hr ht).2, ?_⟩
  · rintro ⟨r, hr, ht⟩
    exact (hmem r hr ht).1
  · intro hc
    refine ⟨⟨"retpoline", "Y"⟩, ?_, rfl⟩
    rw [moduleInfo_eq, hc]
    simp
  · intro cfg2 h2
    rw [moduleInfo_eq, moduleInfo_eq, h2]

/-- C18 (the CRC is a function of the name).  For any two import records taken
from any of the seven `____versions` arrays, of the same module or of different
modules, equal names give equal CRC values. -/
theorem crc_function_of_name (M1 M2 : Module) (r1 r2 : ImportRecord)
    (h1 : r1 ∈ records M1) (h2 : r2 ∈ records M2) (hname : r1.name = r2.name) :
    r1.crc = r2.crc := by
  obtain ⟨c1, e1, _, f1⟩ := crc_of_mem r1 (mem_allRecords M1 r1 h1)
  obtain ⟨c2, e2, _, f2⟩ := crc_of_mem r2 (mem_allRecords M2 r2 h2)
  rw [hname, f2] at f1
  rw [e1, e2, f1]

/-- Witness for C18: the `_printk` records of `cec_gpib` and of `nec7210`, which
stand at different offsets. -/
theorem crc_function_of_name_witness :
    printkRecord ∈ records .cec_gpib ∧ printkRecordNec7210 ∈ records .nec7210 ∧
      printkRecord.name = printkRecordNec7210.name ∧ printkRecord ≠ printkRecordNec7210 ∧
      printkRecord.crc = printkRecordNec7210.crc :=
  ⟨named_records_mem.2.2.1, printkRecordNec7210_mem, by decide, by decide,
    crc_function_of_name .cec_gpib .nec7210 printkRecord printkRecordNec7210
      named_records_mem.2.2.1 printkRecordNec7210_mem (by decide)⟩

/-- C19 (no zero CRC).  In all seven modules every import record of the
`____versions` array has a CRC field, and its value is different from 0; and
every `SYMBOL_CRC` entry carries a CRC different from 0. -/
theorem no_zero_crc :
    (∀ M : Module, ∀ r ∈ records M, ∃ c, r.crc = some c ∧ c ≠ 0) ∧
      (∀ M : Module, ∀ e ∈ symbolCrc M, e.crc ≠ 0) := by
  constructor
  · intro M r hr
    obtain ⟨c, e1, e2, _⟩ := crc_of_mem r (mem_allRecords M r hr)
    exact ⟨c, e1, e2⟩
  · intro M e he
    exact ((export_entry_facts M).2 e he).2

/-- C20 (license qualifiers).  In each module the qualifier of every
`KSYMTAB_FUNC` entry and of every `SYMBOL_CRC` entry is the empty string or
`_gpl`. -/
theorem export_qualifiers (M : Module) :
    (∀ k ∈ ksymtab M, k.sec = "" ∨ k.sec = "_gpl") ∧
      (∀ e ∈ symbolCrc M, e.sec = "" ∨ e.sec = "_gpl") :=
  ⟨(export_entry_facts M).1, fun e he => ((export_entry_facts M).2 e he).1⟩

/-! ## Lengths, dependencies and providers: facts established by evaluation -/

set_option maxRecDepth 100000 in
set_option maxHeartbeats 40000000 in
/-- The tables of the seven modules, evaluated together: every record is at most
0x2c bytes long and as long as the padding rule says; the longest record is a
record of `tms9914`; every pair of modules passes `dependsOk`; and two different
modules export no symbols with the same name number. -/
theorem stack_facts :
    (∀ r ∈ allRecords, r.len ≤ 0x2c ∧ r.len = 8 + 4 * ((r.name.length + 1 + 3) / 4)) ∧
      ubsanShiftRecord ∈ records .tms9914 ∧
      (Module.all.all fun M => Module.all.all fun P => dependsOk M P) = true ∧
      (Module.all.all fun P => Module.all.all fun Q =>
        (P == Q) || exportKeysDisjoint P Q) = true := by
  decide!

/-- The depends values, evaluated: only `gpib_common` has the empty value, every
other module lists `gpib_common`, every listed name is the name of a module, and
a listed module has a smaller height. -/
theorem depends_facts (M : Module) :
    (dependsValue M = some "" ↔ M = .gpib_common) ∧
      (M ≠ .gpib_common → modName .gpib_common ∈ dependsNames M) ∧
      (∀ s ∈ dependsNames M, s ∈ Module.all.map modName) ∧
      (∀ P ∈ Module.all, modName P ∈ dependsNames M → rank P < rank M) := by
  cases M <;> decide

/-- Every module is in the list of all modules. -/
theorem mem_all (M : Module) : M ∈ Module.all := by
  cases M <;> decide

/-- What `dependsOk` says for a pair of modules. -/
theorem dependsOk_all (M P : Module) : dependsOk M P = true :=
  List.all_eq_true.mp (List.all_eq_true.mp stack_facts.2.2.1 M (mem_all M)) P (mem_all P)

/-- What `sharesName` establishes. -/
theorem sharesName_spec (rs : List ImportRecord) (ks : List KsymtabEntry)
    (h : sharesName rs ks = true) : ∃ k ∈ ks, ∃ r ∈ rs, r.name = cbytes k.name := by
  unfold sharesName at h
  obtain ⟨k, hk, h2⟩ := List.any_eq_true.mp h
  obtain ⟨r, hr, h3⟩ := List.any_eq_true.mp h2
  exact ⟨k, hk, r, hr, beqBytes_eq _ _ h3⟩

/-- What the failure of `sharesKey` establishes. -/
theorem sharesKey_false (rs : List ImportRecord) (ks : List KsymtabEntry)
    (h : sharesKey rs ks = false) : ∀ r ∈ rs, ∀ k ∈ ks, r.name ≠ cbytes k.name := by
  intro r hr k hk hname
  have : sharesKey rs ks = true := by
    unfold sharesKey
    refine List.any_eq_true.mpr ⟨k, hk, List.any_eq_true.mpr ⟨r, hr, ?_⟩⟩
    rw [hname]
    exact Nat.beq_refl _
  rw [h] at this
  exact absurd this (by decide)

/-- A module imports no symbol from a module that it does not list. -/
theorem not_listed_no_import (M P : Module) (h : ¬ modName P ∈ dependsNames M) :
    ∀ r ∈ records M, ∀ k ∈ ksymtab P, r.name ≠ cbytes k.name := by
  have h1 := dependsOk_all M P
  unfold dependsOk at h1
  rw [if_neg h] at h1
  exact sharesKey_false _ _ (by simpa using h1)

/-- A module that lists another one is different from it and imports one of its
exports. -/
theorem listed_imports (M P : Module) (h : modName P ∈ dependsNames M) :
    P ≠ M ∧ ∃ k ∈ ksymtab P, ∃ r ∈ records M, r.name = cbytes k.name := by
  have h1 := dependsOk_all M P
  unfold dependsOk at h1
  rw [if_pos h] at h1
  simp only [Bool.and_eq_true, bne_iff_ne, ne_eq] at h1
  exact ⟨h1.1, sharesName_spec _ _ h1.2⟩

/-- No module lists itself. -/
theorem not_self_listed (M : Module) : ¬ modName M ∈ dependsNames M := by
  intro h
  exact (listed_imports M M h).1 rfl

/-- A listed module has a smaller height, also along a chain of listings. -/
theorem rank_lt_of_chain (M P : Module) (h : Relation.TransGen dependsOn M P) :
    rank P < rank M := by
  induction h with
  | single h => exact (depends_facts M).2.2.2 _ (mem_all _) h
  | @tail Q R _ h ih =>
    exact Nat.lt_trans ((depends_facts Q).2.2.2 R (mem_all R) h) ih

/-! ## Theorems on record lengths, dependencies and providers -/

/-- C21 (record-length cap).  The maximum record length over all import records
of the seven `____versions` arrays is exactly 0x2c = 44: no record is longer, and
the record `__ubsan_handle_shift_out_of_bounds` of `tms9914` has that length; so
every record length is at most 56. -/
theorem record_len_cap :
    (∀ M : Module, ∀ r ∈ records M, r.len ≤ 0x2c) ∧
      (ubsanShiftRecord ∈ records .tms9914 ∧ ubsanShiftRecord.len = 0x2c ∧
        ubsanShiftRecord.name = cbytes "__ubsan_handle_shift_out_of_bounds") ∧
      (∀ M : Module, ∀ r ∈ records M, r.len ≤ 56) := by
  refine ⟨fun M r hr => (stack_facts.1 r (mem_allRecords M r hr)).1,
    ⟨stack_facts.2.1, by decide, by decide⟩, fun M r hr => ?_⟩
  have := (stack_facts.1 r (mem_allRecords M r hr)).1
  omega

/-- C22 (padding rule).  For every import record of the seven arrays, with a name
of `n` bytes: `n ≥ 1`, the length prefix is `8 + 4 * ceil((n + 1) / 4)`, the
record length is a multiple of 4, and the name is followed by at least 1 and at
most 4 NUL bytes, which end the record. -/
theorem padding_rule (M : Module) (r : ImportRecord) (hr : r ∈ records M) :
    1 ≤ r.name.length ∧ r.len = 8 + 4 * ((r.name.length + 1 + 3) / 4) ∧ r.len % 4 = 0 ∧
      ∃ k, 1 ≤ k ∧ k ≤ 4 ∧ r.nameRegion = r.name ++ List.replicate k 0 := by
  have hlen := (stack_facts.1 r (mem_allRecords M r hr)).2
  obtain ⟨_, _, h0, h1, h2, h3, _⟩ := (table_facts M).2.1 r hr
  obtain ⟨name, k, hne, _, hk, hreg, hname⟩ := region_shape r.nameRegion h1 h2 h3
  have hn : r.name = name := hname
  have hpos : 1 ≤ name.length := by
    cases name with
    | nil => exact absurd rfl hne
    | cons x xs => simp
  have hreglen : r.nameRegion.length = r.len - 8 := by
    unfold ImportRecord.nameRegion
    rw [List.length_drop, h0]
  have hsum : name.length + k = r.len - 8 := by
    rw [← hreglen, hreg, List.length_append, List.length_replicate]
  rw [hn] at hlen ⊢
  refine ⟨hpos, hlen, by omega, k, hk, by omega, hreg⟩

/-- Witness for C22: the longest record, whose name of 34 bytes is followed by
two NUL bytes. -/
theorem padding_rule_witness :
    ubsanShiftRecord ∈ records .tms9914 ∧
      (1 ≤ ubsanShiftRecord.name.length ∧
        ubsanShiftRecord.len = 8 + 4 * ((ubsanShiftRecord.name.length + 1 + 3) / 4) ∧
        ubsanShiftRecord.len % 4 = 0 ∧
        ∃ k, 1 ≤ k ∧ k ≤ 4 ∧
          ubsanShiftRecord.nameRegion = ubsanShiftRecord.name ++ List.replicate k 0) :=
  ⟨stack_facts.2.1, padding_rule .tms9914 ubsanShiftRecord stack_facts.2.1⟩

/-- C23 (depends matches imports).  With each module named after its file, for
every module `M` the names that its depends value lists are exactly the names of
the modules `P` other than `M` that export, by `KSYMTAB_FUNC`, at least one symbol
named in the `____versions` array of `M`.  `gpib_common` has the empty depends
value and imports no symbol that a module of the stack exports. -/
theorem depends_matches_imports :
    (∀ (M : Module) (s : String), s ∈ dependsNames M ↔
      ∃ P : Module, s = modName P ∧ P ≠ M ∧
        ∃ k ∈ ksymtab P, ∃ r ∈ records M, r.name = cbytes k.name) ∧
      dependsValue .gpib_common = some "" ∧
      (∀ P : Module, ∀ r ∈ records .gpib_common, ∀ k ∈ ksymtab P, r.name ≠ cbytes k.name) := by
  refine ⟨fun M s => ⟨fun hs => ?_, ?_⟩, by decide, fun P => ?_⟩
  · obtain ⟨P, _, hP⟩ := List.mem_map.mp ((depends_facts M).2.2.1 s hs)
    subst hP
    exact ⟨P, rfl, listed_imports M P hs⟩
  · rintro ⟨P, rfl, _, k, hk, r, hr, hname⟩
    by_contra hnot
    exact not_listed_no_import M P hnot r hr k hk hname
  · exact not_listed_no_import .gpib_common P (by cases P <;> decide)

/-- C24 (the dependency graph is well-founded).  The relation "`M` lists `P` in
its depends value" over the seven modules has no cycle and is well-founded;
`gpib_common` is the only module with an empty depends value; every other module
lists `gpib_common`; and every name in a depends value is the name of one of the
seven modules. -/
theorem depends_well_founded :
    (∀ M : Module, ¬ Relation.TransGen dependsOn M M) ∧
      WellFounded (fun P M : Module => dependsOn M P) ∧
      (∀ M : Module, dependsValue M = some "" ↔ M = .gpib_common) ∧
      (∀ M : Module, M ≠ .gpib_common → dependsOn M .gpib_common) ∧
      (∀ M : Module, ∀ s ∈ dependsNames M, ∃ P : Module, s = modName P) := by
  refine ⟨fun M h => Nat.lt_irrefl _ (rank_lt_of_chain M M h), ?_,
    fun M => (depends_facts M).1, fun M h => (depends_facts M).2.1 h, fun M s hs => ?_⟩
  · refine Subrelation.wf ?_ (InvImage.wf rank Nat.lt_wfRel.wf)
    intro P M h
    exact (depends_facts M).2.2.2 P (mem_all P) h
  · obtain ⟨P, _, hP⟩ := List.mem_map.mp ((depends_facts M).2.2.1 s hs)
    exact ⟨P, hP.symm⟩

/-- C25 (unique provider).  No symbol name is exported by two different modules:
the export name sets of the modules are pairwise disjoint; and no module has in
its own `____versions` array a record that names a symbol it exports itself. -/
theorem unique_provider :
    (∀ P Q : Module, P ≠ Q → ∀ k ∈ ksymtab P, ∀ q ∈ ksymtab Q, k.name ≠ q.name) ∧
      (∀ M : Module, ∀ r ∈ records M, ∀ k ∈ ksymtab M, r.name ≠ cbytes k.name) := by
  constructor
  · intro P Q hPQ k hk q hq hname
    have h1 := List.all_eq_true.mp (List.all_eq_true.mp stack_facts.2.2.2 P (mem_all P))
      Q (mem_all Q)
    have h2 : exportKeysDisjoint P Q = true := by
      simpa [hPQ] using h1
    have h3 := List.all_eq_true.mp (List.all_eq_true.mp h2 k hk) q hq
    rw [hname, Nat.beq_refl] at h3
    exact absurd h3 (by decide)
  · intro M
    exact not_listed_no_import M M (not_self_listed M)

end GpibModules
